import Mathlib

/-!
Verification development for the crew-rostering backend
(`app/rules/engine.py`, `app/rules/hard_soft_engine.py`,
`app/optimizer/simple_opt.py`, `app/optimizer/or_tools_opt.py`,
`app/optimizer/conflict_detector.py`, `app/services/orchestrator.py`).

Shallow-embedding conventions:
* A Python `datetime` is modelled as an integer number of minutes since the
  Unix epoch (`DateTime := Int`); a `date` is an integer day number since
  1970-01-01 (a Thursday).  `datetime.date()` is floor division by 1440,
  `datetime.hour` is derived from the minute-of-day, and
  `datetime.replace(hour=h, minute=0, second=0, microsecond=0)` is
  `dateOf t * 1440 + 60 * h`.
* A Python `timedelta` is an exact number of minutes (`Int`); the fractional
  configuration thresholds (`timedelta(hours=x)` for float `x`) live in `ℚ`
  (minutes).  Float arithmetic in scores/KPIs is modelled by exact rational
  arithmetic.
* Python dictionaries are association lists updated in place (`aset`), which
  preserves the source's insertion-order iteration semantics; dict-of-list
  accumulators (`setdefault(k, []).append(v)`) use `asetCons`.
* SQLAlchemy queries are embedded as list filters over a database snapshot
  (`Db`); `date.today()` is the snapshot field `Db.today`.
-/

/-! ### Time model -/

/-- Minutes since the Unix epoch; stands for a Python `datetime`. -/
abbrev DateTime := Int

/-- `t.date()` as a day number (floor division, correct for times before the
epoch as well). -/
def dateOf (t : DateTime) : Int := Int.fdiv t 1440

/-- `t.hour` (0..23). -/
def hourOf (t : DateTime) : Int := (Int.emod t 1440) / 60

/-- `date.weekday()` for a day number: Monday = 0.  1970-01-01 (day 0) was a
Thursday, hence the +3 offset. -/
def weekdayOf (d : Int) : Int := Int.emod (d + 3) 7

/-- `date.strftime("%A")` — the English weekday name. -/
def weekdayName (d : Int) : String :=
  match (weekdayOf d).toNat with
  | 0 => "Monday"
  | 1 => "Tuesday"
  | 2 => "Wednesday"
  | 3 => "Thursday"
  | 4 => "Friday"
  | 5 => "Saturday"
  | _ => "Sunday"

/-- Grouping key for `datetime.isocalendar()[:2]` (ISO year, ISO week).
Two datetimes share the ISO (year, week) label exactly when they lie in the
same Monday-aligned 7-day block, so the block index is an observationally
equivalent dictionary key (only key equality is ever used by the source). -/
def weekIndexOf (t : DateTime) : Int := Int.fdiv (dateOf t + 3) 7

/-- `(year, month)` of a day number (Gregorian, proleptic); used only as the
grouping key `(dt.year, dt.month)` in the conflict detector. -/
def monthKeyOf (t : DateTime) : Int × Int :=
  let z : Int := dateOf t + 719468
  let era : Int := (if 0 ≤ z then z else z - 146096) / 146097
  let doe : Int := z - era * 146097
  let yoe : Int := (doe - doe / 1460 + doe / 36524 - doe / 146096) / 365
  let y : Int := yoe + era * 400
  let doy : Int := doe - (365 * yoe + yoe / 4 - yoe / 100)
  let mp : Int := (5 * doy + 2) / 153
  let m : Int := mp + (if mp < 10 then 3 else -9)
  (y + (if m ≤ 2 then 1 else 0), m)

/-! ### Association-list dictionaries -/

/-- `d.get(k)` on a Python dict represented as an association list. -/
def alookup {β : Type} (l : List (Int × β)) (k : Int) : Option β :=
  (l.find? (fun p => p.1 == k)).map (·.2)

/-- `d[k] = v`: update in place if the key exists (preserving its position in
the iteration order), otherwise append. -/
def aset {β : Type} : List (Int × β) → Int → β → List (Int × β)
  | [], k, v => [(k, v)]
  | (k', v') :: t, k, v =>
      if k' = k then (k', v) :: t else (k', v') :: aset t k v

/-- `d.setdefault(k, []).append(v)`. -/
def asetCons {β : Type} (l : List (Int × List β)) (k : Int) (v : β) :
    List (Int × List β) :=
  aset l k (((alookup l k).getD []) ++ [v])

/-- Values of a dict, in iteration order (`d.values()`). -/
def avalues {β : Type} (l : List (Int × β)) : List β := l.map (·.2)

/-! ### Data model (`app/storage/models.py`) -/

structure CrewRow where
  crew_id : Int
  name : String
  rank : String
  base_iata : String
  status : String
deriving DecidableEq, Repr

structure FlightRow where
  flight_id : Int
  flight_no : String
  flight_date : Int
  dep_iata : String
  arr_iata : String
  sched_dep_utc : DateTime
  sched_arr_utc : DateTime
  aircraft_code : String
deriving DecidableEq, Repr

structure QualRow where
  crew_id : Int
  aircraft_code : String
  qualified_on : Int
  expires_on : Option Int
deriving DecidableEq, Repr

structure PrefRow where
  crew_id : Int
  preference_type : String
  preference_value : String
  weight : Int
  valid_from : Option Int
  valid_to : Option Int
deriving DecidableEq, Repr

structure AvailRow where
  crew_id : Int
  availability_type : String
  unavailable_from : Int
  unavailable_to : Int
  status : String
deriving DecidableEq, Repr

structure DutyPeriodRow where
  duty_id : Int
  crew_id : Int
  duty_start_utc : DateTime
  duty_end_utc : DateTime
  base_iata : String
deriving DecidableEq, Repr

structure DutyFlightRow where
  duty_id : Int
  flight_id : Int
  leg_seq : Int
deriving DecidableEq, Repr

structure DisruptionRow where
  disruption_id : Int
  flight_no : Option String
  disruption_type : String
  disruption_date : Int
  impact_duration : Option Int
  crew_id : Option Int
  reason : Option String
  resolution : Option String
deriving DecidableEq, Repr

/-- A consistent snapshot of the persistence collaborator, plus the value of
`date.today()` at call time. -/
structure Db where
  flights : List FlightRow := []
  crew : List CrewRow := []
  quals : List QualRow := []
  prefs : List PrefRow := []
  avail : List AvailRow := []
  dutyPeriods : List DutyPeriodRow := []
  dutyFlights : List DutyFlightRow := []
  disruptions : List DisruptionRow := []
  today : Int := 0
deriving DecidableEq, Repr

/-! ### RulesEngine (`app/rules/engine.py`)

The constructor stores thresholds as `timedelta`s (here: rational minutes).
A Python falsiness check `if not self.x` is true for `None` and for zero, so
the optional-threshold predicates treat a stored zero like an unset bound. -/

structure RulesEngine where
  max_duty_per_day : ℚ := 600      -- timedelta(hours=10)
  min_rest_after_duty : ℚ := 720   -- timedelta(hours=12)
  max_fdp : ℚ := 780               -- timedelta(hours=13)
  max_duty_per_week : Option ℚ := none
  max_duty_per_month : Option ℚ := none
  max_consecutive_duty_days : Option Int := none
  min_rest_between_duties : Option ℚ := none
  max_night_duties_per_week : Option Int := none
  min_rest_after_night_duty : Option ℚ := none
  max_extended_fdp : Option ℚ := none
  max_flight_time_per_day : Option ℚ := none
  max_flight_time_per_week : Option ℚ := none
  max_flight_time_per_month : Option ℚ := none
deriving DecidableEq, Repr

/-- `timedelta(hours=x) if x else None` (falsy `0.0` collapses to `None`). -/
def optHours (o : Option ℚ) : Option ℚ :=
  match o with
  | none => none
  | some x => if x = 0 then none else some (60 * x)

/-- The `RulesEngine.__init__` constructor, taking hour-valued parameters. -/
def RulesEngine.ofHours
    (max_duty_hours_per_day : ℚ := 10) (min_rest_hours_after_duty : ℚ := 12)
    (max_fdp_hours : ℚ := 13)
    (max_duty_hours_per_week : Option ℚ := none)
    (max_duty_hours_per_month : Option ℚ := none)
    (max_consecutive_duty_days : Option Int := none)
    (min_rest_hours_between_duties : Option ℚ := none)
    (max_night_duties_per_week : Option Int := none)
    (min_rest_hours_after_night_duty : Option ℚ := none)
    (max_extended_fdp_hours : Option ℚ := none)
    (max_flight_time_per_day : Option ℚ := none)
    (max_flight_time_per_week : Option ℚ := none)
    (max_flight_time_per_month : Option ℚ := none) : RulesEngine where
  max_duty_per_day := 60 * max_duty_hours_per_day
  min_rest_after_duty := 60 * min_rest_hours_after_duty
  max_fdp := 60 * max_fdp_hours
  max_duty_per_week := optHours max_duty_hours_per_week
  max_duty_per_month := optHours max_duty_hours_per_month
  max_consecutive_duty_days := max_consecutive_duty_days
  min_rest_between_duties := optHours min_rest_hours_between_duties
  max_night_duties_per_week := max_night_duties_per_week
  min_rest_after_night_duty := optHours min_rest_hours_after_night_duty
  max_extended_fdp := optHours max_extended_fdp_hours
  max_flight_time_per_day := optHours max_flight_time_per_day
  max_flight_time_per_week := optHours max_flight_time_per_week
  max_flight_time_per_month := optHours max_flight_time_per_month

def RulesEngine.duty_duration_ok (r : RulesEngine) (start end_ : DateTime) : Bool :=
  let duty_duration : Int := end_ - start
  if (duty_duration : ℚ) > r.max_duty_per_day then false
  else if (duty_duration : ℚ) > r.max_fdp then false
  else true

def RulesEngine.rest_ok (r : RulesEngine) (last_end : Option DateTime)
    (new_start : DateTime) : Bool :=
  match last_end with
  | none => true
  | some l =>
      let rest_duration : Int := new_start - l
      match r.min_rest_between_duties with
      | some m =>
          if m = 0 then decide ((rest_duration : ℚ) ≥ r.min_rest_after_duty)
          else decide ((rest_duration : ℚ) ≥ m)
      | none => decide ((rest_duration : ℚ) ≥ r.min_rest_after_duty)

def RulesEngine.weekly_duty_ok (r : RulesEngine) (weekly_duties : List Int) : Bool :=
  match r.max_duty_per_week with
  | none => true
  | some m =>
      if m = 0 then true
      else decide (((weekly_duties.foldl (· + ·) 0 : Int) : ℚ) ≤ m)

def RulesEngine.monthly_duty_ok (r : RulesEngine) (monthly_duties : List Int) : Bool :=
  match r.max_duty_per_month with
  | none => true
  | some m =>
      if m = 0 then true
      else decide (((monthly_duties.foldl (· + ·) 0 : Int) : ℚ) ≤ m)

def RulesEngine.consecutive_duty_days_ok (r : RulesEngine) (consecutive_days : Int) : Bool :=
  match r.max_consecutive_duty_days with
  | none => true
  | some m => if m = 0 then true else decide (consecutive_days ≤ m)

def RulesEngine.night_duty_ok (r : RulesEngine) (weekly_night_duties : Int) : Bool :=
  match r.max_night_duties_per_week with
  | none => true
  | some m => if m = 0 then true else decide (weekly_night_duties ≤ m)

/-- `RulesEngine.is_night_duty` (`engine.py:108-122`).  `night_start` and
`night_end` are both derived from `start`'s calendar date (22:00 and 06:00 of
the same day), exactly as in the source. -/
def RulesEngine.is_night_duty (_r : RulesEngine) (start end_ : DateTime) : Bool :=
  let night_start : DateTime := dateOf start * 1440 + 22 * 60
  let night_end : DateTime := dateOf start * 1440 + 6 * 60
  if hourOf start ≥ 22 || hourOf start < 6 then true
  else if hourOf end_ ≥ 22 || hourOf end_ < 6 then true
  else if start < night_start && end_ > night_end && night_end > night_start then true
  else false

/-! ### HardSoftRulesEngine (`app/rules/hard_soft_engine.py`)

Hard/soft thresholds as stored by the constructor (`timedelta`s in rational
minutes).  The unused `min_cabin_crew_per_aircraft` display map is omitted; it
never influences any embedded operation. -/

structure HardSoftRulesEngine where
  max_duty_per_day : ℚ := 600
  min_rest_after_duty : ℚ := 720
  max_fdp : ℚ := 780
  max_duty_per_week : Option ℚ := none
  max_duty_per_month : Option ℚ := none
  max_consecutive_duty_days : Option Int := none
  min_rest_between_duties : Option ℚ := none
  max_night_duties_per_week : Option Int := none
  min_rest_after_night_duty : Option ℚ := none
  max_extended_fdp : Option ℚ := none
  max_flight_time_per_day : Option ℚ := none
  max_flight_time_per_week : Option ℚ := none
  max_flight_time_per_month : Option ℚ := none
  min_crew_per_flight : Int := 2
  preferred_max_duty_per_day : ℚ := 480
  preferred_max_consecutive_duty_days : Int := 4
  preferred_rest_after_duty : ℚ := 840
  preferred_night_duties_per_week : Int := 2
  fairness_weight : ℚ := 1
  preference_weight : ℚ := 1
  efficiency_weight : ℚ := 1
deriving DecidableEq, Repr

/-- Insert a violation key into a Python dict of `True` flags: a repeated
`violations[k] = True` (or `.update`) keeps the key's first position. -/
def addKey (l : List String) (k : String) : List String :=
  if k ∈ l then l else l ++ [k]

/-- `HardSoftRulesEngine.is_night_duty` (`hard_soft_engine.py:210-224`); the
body is a verbatim duplicate of `RulesEngine.is_night_duty`. -/
def HardSoftRulesEngine.is_night_duty (_e : HardSoftRulesEngine)
    (start end_ : DateTime) : Bool :=
  let night_start : DateTime := dateOf start * 1440 + 22 * 60
  let night_end : DateTime := dateOf start * 1440 + 6 * 60
  if hourOf start ≥ 22 || hourOf start < 6 then true
  else if hourOf end_ ≥ 22 || hourOf end_ < 6 then true
  else if start < night_start && end_ > night_end && night_end > night_start then true
  else false

/-- Python truthiness of an optional numeric threshold: `None` and `0` are
both falsy. -/
def optTruthyQ (o : Option ℚ) : Option ℚ :=
  match o with
  | none => none
  | some x => if x = 0 then none else some x

def optTruthyI (o : Option Int) : Option Int :=
  match o with
  | none => none
  | some x => if x = 0 then none else some x

/-- `check_rank_specific_hard_rules` (`hard_soft_engine.py:158-180`); returns
the ordered key set of the violations dict. -/
def HardSoftRulesEngine.check_rank_specific_hard_rules (e : HardSoftRulesEngine)
    (rank : String) (_duty_duration : Int) (consecutive_days : Int)
    (night_duties : Int) : List String :=
  let v : List String := []
  let v :=
    if rank = "Captain" then
      match optTruthyI e.max_consecutive_duty_days with
      | some m => if consecutive_days > m - 1 then addKey v "consecutive_duty_days_exceeded" else v
      | none => v
    else if rank = "FirstOfficer" then
      match optTruthyI e.max_consecutive_duty_days with
      | some m => if consecutive_days > m then addKey v "consecutive_duty_days_exceeded" else v
      | none => v
    else v
  match optTruthyI e.max_night_duties_per_week with
  | some m => if night_duties ≥ m then addKey v "night_duty_limit_exceeded" else v
  | none => v

/-- `check_hard_rule_violations` (`hard_soft_engine.py:67-123`); returns the
ordered key set of the violations dict (all values are `True`). -/
def HardSoftRulesEngine.check_hard_rule_violations (e : HardSoftRulesEngine)
    (duty_start duty_end : DateTime) (crew_rank : String)
    (consecutive_days : Int) (weekly_duties monthly_duties : List Int)
    (weekly_night_duties : Int) (weekly_flight_time monthly_flight_time : Int) :
    List String :=
  let duty_duration : Int := duty_end - duty_start
  let v : List String := []
  let v := if (duty_duration : ℚ) > e.max_duty_per_day then addKey v "duty_duration_exceeded" else v
  let v := if (duty_duration : ℚ) > e.max_fdp then addKey v "fdp_exceeded" else v
  let v :=
    match optTruthyQ e.max_duty_per_week with
    | some m =>
        if ((weekly_duties.foldl (· + ·) 0 : Int) : ℚ) > m then addKey v "weekly_duty_exceeded" else v
    | none => v
  let v :=
    match optTruthyQ e.max_duty_per_month with
    | some m =>
        if ((monthly_duties.foldl (· + ·) 0 : Int) : ℚ) > m then addKey v "monthly_duty_exceeded" else v
    | none => v
  let v :=
    match optTruthyI e.max_consecutive_duty_days with
    | some m => if consecutive_days > m then addKey v "consecutive_duty_days_exceeded" else v
    | none => v
  let v :=
    match optTruthyQ e.max_flight_time_per_week with
    | some m => if (weekly_flight_time : ℚ) > m then addKey v "weekly_flight_time_exceeded" else v
    | none => v
  let v :=
    match optTruthyQ e.max_flight_time_per_month with
    | some m => if (monthly_flight_time : ℚ) > m then addKey v "monthly_flight_time_exceeded" else v
    | none => v
  let v :=
    if e.is_night_duty duty_start duty_end then
      match optTruthyI e.max_night_duties_per_week with
      | some m => if weekly_night_duties ≥ m then addKey v "night_duty_limit_exceeded" else v
      | none => v
    else v
  (e.check_rank_specific_hard_rules crew_rank duty_duration consecutive_days
      weekly_night_duties).foldl addKey v

/-- `check_soft_rule_violations` (`hard_soft_engine.py:125-156`); the penalty
map as an ordered association list (each key is assigned at most once). -/
def HardSoftRulesEngine.check_soft_rule_violations (e : HardSoftRulesEngine)
    (duty_start duty_end : DateTime) (_crew_rank : String)
    (consecutive_days : Int) (weekly_night_duties : Int)
    (crew_duty_count : Int) (avg_duty_count : ℚ) : List (String × ℚ) :=
  let duty_duration : Int := duty_end - duty_start
  let p : List (String × ℚ) := []
  let p :=
    if (duty_duration : ℚ) > e.preferred_max_duty_per_day then
      let excess : ℚ := ((duty_duration : ℚ) - e.preferred_max_duty_per_day) / 60
      p ++ [("long_duty_hours", excess * (1/2))]
    else p
  let p :=
    match optTruthyI e.preferred_max_consecutive_duty_days with
    | some m =>
        if consecutive_days > m then
          p ++ [("long_consecutive_days", ((consecutive_days - m : Int) : ℚ) * 1)]
        else p
    | none => p
  let p :=
    if e.is_night_duty duty_start duty_end then
      match optTruthyI e.preferred_night_duties_per_week with
      | some m => if weekly_night_duties ≥ m then p ++ [("excessive_night_duties", 2)] else p
      | none => p
    else p
  if avg_duty_count > 0 then
    p ++ [("fairness_deviation", |(crew_duty_count : ℚ) - avg_duty_count| * e.fairness_weight)]
  else p

/-! ### GreedyAssigner (`app/optimizer/simple_opt.py`) -/

/-- One element of the `assignments` list produced by either optimizer: the
assigned dict (`crew_id`, `crew_name`, `flight_id`, `duty_start_utc`,
`duty_end_utc`) or the unassigned dict carrying `note="UNASSIGNED"`. -/
structure AssignmentEntry where
  crew_id : Option Int
  crew_name : Option String
  flight_id : Int
  duty_start_utc : DateTime
  duty_end_utc : DateTime
  note : Option String := none
deriving DecidableEq, Repr

/-- The KPI record computed by `generate_roster` / `_process_solution`. -/
structure Kpis where
  flights_total : Nat
  flights_assigned : Nat
  assignment_rate : ℚ
  avg_duty_per_crew : ℚ
  max_duty_per_crew : Nat
  min_duty_per_crew : Nat
  duty_distribution_range : Int
  compliance_rate : ℚ
  avg_preference_score : ℚ
  fairness_score : ℚ
deriving DecidableEq, Repr

/-- `calculate_preference_score` (`simple_opt.py:9-32`).  The per-crew list
`pref_map.get(crew_id, [])` is realized by filtering the (already
validity-filtered) preference rows by crew id, preserving order. -/
def calculate_preference_score (crew_id : Int) (flight_date : Int)
    (dep_iata arr_iata flight_no : String) (pref_map : List PrefRow) : Int :=
  ((pref_map.filter (fun p => p.crew_id = crew_id)).foldl (fun score p =>
    if p.preference_type = "day_off" ∧ p.preference_value = weekdayName flight_date then
      score - p.weight * 10
    else if p.preference_type = "base" ∧ p.preference_value = dep_iata then
      score + p.weight * 2
    else if p.preference_type = "destination" ∧ p.preference_value = arr_iata then
      score + p.weight
    else if p.preference_type = "flight_no" ∧ p.preference_value = flight_no then
      score + p.weight * 3
    else if p.preference_type = "weekend_off" ∧ weekdayOf flight_date ≥ 5 then
      score - p.weight * 5
    else score) 0)

/-- `calculate_multi_objective_score` (`simple_opt.py:34-61`). -/
def calculate_multi_objective_score (crew_id : Int) (f : FlightRow)
    (pref_map : List PrefRow) (crew_duty_count : List (Int × Nat))
    (crew_consecutive_days : List (Int × Nat)) (crew_night_duties : List (Int × Nat))
    (avg_duty_count : ℚ) : ℚ :=
  let pref_score : Int :=
    calculate_preference_score crew_id f.flight_date f.dep_iata f.arr_iata f.flight_no pref_map
  let duty_count : Nat := (alookup crew_duty_count crew_id).getD 0
  let consecutive_days : Nat := (alookup crew_consecutive_days crew_id).getD 0
  let night_duties : Nat := (alookup crew_night_duties crew_id).getD 0
  let fairness_score : ℚ :=
    (if avg_duty_count > 0 then 0 - |(duty_count : ℚ) - avg_duty_count| * 2 else 0)
      - (consecutive_days : ℚ) * (3/2) - (night_duties : ℚ) * 1
  let efficiency_score : ℚ := (duty_count : ℚ) * (1/2)
  (pref_score : ℚ) * (1/2) + fairness_score * (3/10) + efficiency_score * (1/5)

/-- The `qual_map[crew_id][aircraft_code]` lookup: later rows overwrite
earlier ones for the same (crew, aircraft) key, as in dict construction. -/
def qualLookup (qual_map : List QualRow) (crew_id : Int) (aircraft_code : String) :
    Option QualRow :=
  qual_map.foldl (fun acc q =>
    if q.crew_id = crew_id ∧ q.aircraft_code = aircraft_code then some q else acc) none

/-- `is_crew_qualified_for_flight` (`simple_opt.py:63-76`). -/
def is_crew_qualified_for_flight (crew_id : Int) (f : FlightRow)
    (qual_map : List QualRow) (flight_date : Int) : Bool :=
  match qualLookup qual_map crew_id f.aircraft_code with
  | none => false
  | some q =>
      match q.expires_on with
      | some e => if e < flight_date then false else true
      | none => true

/-- `is_crew_available` (`simple_opt.py:96-106`).  The per-crew grouping of
`unavailable_crew_map` is realized by the crew-id conjunct of the scan. -/
def is_crew_available (crew_id : Int) (flight_date : Int)
    (unavailable_crew_map : List AvailRow) : Bool :=
  unavailable_crew_map.all (fun r =>
    !(decide (r.crew_id = crew_id ∧ r.unavailable_from ≤ flight_date ∧
        flight_date ≤ r.unavailable_to)))

/-- The running per-crew aggregates of the greedy scan, plus the assignment
list built so far. -/
structure GState where
  crew_duty_history : List (Int × List Int) := []
  crew_last_duty_end : List (Int × DateTime) := []
  crew_duty_count : List (Int × Nat) := []
  crew_weekly_duties : List (Int × List Int) := []
  crew_consecutive_days : List (Int × Nat) := []
  crew_night_duties : List (Int × Nat) := []
  assignments : List AssignmentEntry := []
deriving DecidableEq, Repr

/-- The reference data consumed by the greedy loop: active crew and the
already-filtered qualification / preference / availability rows. -/
structure GreedyCtx where
  crew : List CrewRow
  qual_map : List QualRow
  pref_map : List PrefRow
  unavailable_crew_map : List AvailRow
  rules : RulesEngine
deriving Repr

/-- `sum(crew_duty_count.values()) / len(crew_duty_count) if crew_duty_count
else 0`. -/
def avgDutyCount (m : List (Int × Nat)) : ℚ :=
  if m.isEmpty then 0
  else (((avalues m).foldl (· + ·) 0 : Nat) : ℚ) / (m.length : ℚ)

/-- The eligibility filter of the greedy loop (`simple_opt.py:170-200`). -/
def greedyEligible (ctx : GreedyCtx) (s : GState) (f : FlightRow) (c : CrewRow) : Bool :=
  is_crew_qualified_for_flight c.crew_id f ctx.qual_map f.flight_date &&
  is_crew_available c.crew_id f.flight_date ctx.unavailable_crew_map &&
  ctx.rules.duty_duration_ok f.sched_dep_utc f.sched_arr_utc &&
  ctx.rules.rest_ok (alookup s.crew_last_duty_end c.crew_id) f.sched_dep_utc &&
  ctx.rules.weekly_duty_ok ((alookup s.crew_weekly_duties c.crew_id).getD []) &&
  ctx.rules.consecutive_duty_days_ok
    (((alookup s.crew_consecutive_days c.crew_id).getD 0 : Nat) : Int) &&
  (!(ctx.rules.is_night_duty f.sched_dep_utc f.sched_arr_utc) ||
    ctx.rules.night_duty_ok (((alookup s.crew_night_duties c.crew_id).getD 0 : Nat) : Int))

/-- The `scored_crew` list of the greedy loop (`simple_opt.py:215-221`):
eligible crew paired with their multi-objective scores. -/
def greedyScored (ctx : GreedyCtx) (s : GState) (f : FlightRow) :
    List (CrewRow × ℚ) :=
  (ctx.crew.filter (greedyEligible ctx s f)).map (fun c =>
    (c, calculate_multi_objective_score c.crew_id f ctx.pref_map
      s.crew_duty_count s.crew_consecutive_days s.crew_night_duties
      (avgDutyCount s.crew_duty_count)))

/-- `scored_crew.sort(key=lambda x: -x[1])` — Python's stable sort by
descending score, embedded as a stable insertion sort. -/
def greedySorted (ctx : GreedyCtx) (s : GState) (f : FlightRow) :
    List (CrewRow × ℚ) :=
  List.insertionSort (fun a b => b.2 ≤ a.2) (greedyScored ctx s f)

/-- One iteration of the greedy loop (`simple_opt.py:161-268`): filter the
eligible crew, rank them by descending multi-objective score (Python's stable
sort followed by taking element 0), assign the winner and update the running
aggregates — mirroring the source's update order, in which
`crew_last_duty_end` is overwritten with the new duty's end *before* the
consecutive-day comparison reads it back. -/
def greedyStep (ctx : GreedyCtx) (s : GState) (f : FlightRow) : GState :=
  let start := f.sched_dep_utc
  let end_ := f.sched_arr_utc
  let duty_duration : Int := end_ - start
  match (greedySorted ctx s f).head? with
  | some (c, _) =>
      let consecutive_count : Nat := (alookup s.crew_consecutive_days c.crew_id).getD 0
      let night_count : Nat := (alookup s.crew_night_duties c.crew_id).getD 0
      let assignments := s.assignments ++
        [{ crew_id := some c.crew_id, crew_name := some c.name, flight_id := f.flight_id,
           duty_start_utc := start, duty_end_utc := end_ }]
      let crew_last_duty_end := aset s.crew_last_duty_end c.crew_id end_
      let crew_duty_history := asetCons s.crew_duty_history c.crew_id duty_duration
      let crew_duty_count :=
        aset s.crew_duty_count c.crew_id ((alookup s.crew_duty_count c.crew_id).getD 0 + 1)
      let crew_weekly_duties := asetCons s.crew_weekly_duties c.crew_id duty_duration
      let crew_consecutive_days :=
        match alookup crew_last_duty_end c.crew_id with
        | some last_duty_end =>
            if dateOf start - dateOf last_duty_end = 1 then
              aset s.crew_consecutive_days c.crew_id (consecutive_count + 1)
            else
              aset s.crew_consecutive_days c.crew_id 1
        | none => aset s.crew_consecutive_days c.crew_id 1
      let crew_night_duties :=
        if ctx.rules.is_night_duty start end_ then
          aset s.crew_night_duties c.crew_id (night_count + 1)
        else s.crew_night_duties
      { crew_duty_history := crew_duty_history, crew_last_duty_end := crew_last_duty_end,
        crew_duty_count := crew_duty_count, crew_weekly_duties := crew_weekly_duties,
        crew_consecutive_days := crew_consecutive_days, crew_night_duties := crew_night_duties,
        assignments := assignments }
  | none =>
      { s with assignments := s.assignments ++
          [{ crew_id := none, crew_name := none, flight_id := f.flight_id,
             duty_start_utc := f.sched_dep_utc, duty_end_utc := f.sched_arr_utc,
             note := some "UNASSIGNED" }] }

/-- The flights of the period, ordered by scheduled departure
(`ORDER BY sched_dep_utc`, embedded as a stable sort). -/
def periodFlights (db : Db) (period_start period_end : Int) : List FlightRow :=
  List.insertionSort (fun a b => a.sched_dep_utc ≤ b.sched_dep_utc)
    (db.flights.filter (fun f => period_start ≤ f.flight_date ∧ f.flight_date ≤ period_end))

/-- The `CrewAvailability` query of `generate_roster` (`simple_opt.py:120-124`):
approved records overlapping the period. -/
def approvedUnavail (db : Db) (period_start period_end : Int) : List AvailRow :=
  db.avail.filter (fun r =>
    r.unavailable_from ≤ period_end ∧ period_start ≤ r.unavailable_to ∧
      r.status = "approved")

/-- The qualification filter of `generate_roster` (`simple_opt.py:136-141`):
drop rows already expired as of `today`. -/
def currentQuals (db : Db) : List QualRow :=
  db.quals.filter (fun q =>
    match q.expires_on with
    | none => true
    | some e => db.today ≤ e)

/-- The preference filter of `generate_roster` (`simple_opt.py:145-150`):
keep rows whose validity window contains `today`. -/
def currentPrefs (db : Db) : List PrefRow :=
  db.prefs.filter (fun p =>
    (match p.valid_from with | none => true | some v => decide (v ≤ db.today)) &&
    (match p.valid_to with | none => true | some v => decide (db.today ≤ v)))

/-- The greedy context built by `generate_roster`'s data-loading prologue. -/
def greedyCtx (db : Db) (period_start period_end : Int) (rules : RulesEngine) :
    GreedyCtx where
  crew := db.crew.filter (fun c => c.status = "Active")
  qual_map := currentQuals db
  pref_map := currentPrefs db
  unavailable_crew_map := approvedUnavail db period_start period_end
  rules := rules

/-- The full greedy fold over the period's flights, exposing the final
running-aggregate state. -/
def greedyRun (db : Db) (period_start period_end : Int) (rules : RulesEngine) : GState :=
  (periodFlights db period_start period_end).foldl
    (greedyStep (greedyCtx db period_start period_end rules)) {}

/-- Truthiness of `a.get("crew_id")` (None — and a zero id — are falsy). -/
def crewIdTruthy (a : AssignmentEntry) : Bool :=
  match a.crew_id with
  | some i => i != 0
  | none => false

/-- Python `max(...)`/`min(...)` over the duty-count dict values, guarded by
`if crew_duty_count else 0`. -/
def maxDutyCount (m : List (Int × Nat)) : Nat :=
  match avalues m with
  | [] => 0
  | v :: vs => vs.foldl max v

def minDutyCount (m : List (Int × Nat)) : Nat :=
  match avalues m with
  | [] => 0
  | v :: vs => vs.foldl min v

/-- The KPI block shared (textually duplicated) by `generate_roster`
(`simple_opt.py:270-299`) and `_process_solution` (`or_tools_opt.py:311-341`):
both compute the same record from the assignment list, the duty-count dict and
the per-assignment preference re-scoring.  `total_pref_score` re-reads each
assigned flight from the flight table (`flightsForLookup`). -/
def computeKpis (assignments : List AssignmentEntry) (total : Nat)
    (crew_duty_count : List (Int × Nat)) (flightsForLookup : List FlightRow)
    (pref_map : List PrefRow) : Kpis :=
  let assigned_count : Nat := assignments.countP crewIdTruthy
  let avg_duty_count : ℚ := avgDutyCount crew_duty_count
  let max_duty_count : Nat := maxDutyCount crew_duty_count
  let min_duty_count : Nat := minDutyCount crew_duty_count
  let total_pref_score : Int :=
    (assignments.filter crewIdTruthy).foldl (fun acc a =>
      match flightsForLookup.find? (fun f => f.flight_id == a.flight_id) with
      | some f => acc + calculate_preference_score (a.crew_id.getD 0) f.flight_date
          f.dep_iata f.arr_iata f.flight_no pref_map
      | none => acc) 0   -- unreachable: assignment flight ids come from the flight table
  let avg_pref_score : ℚ :=
    if assigned_count = 0 then 0 else (total_pref_score : ℚ) / (assigned_count : ℚ)
  { flights_total := total
    flights_assigned := assigned_count
    assignment_rate := if total = 0 then 0 else (assigned_count : ℚ) / (total : ℚ)
    avg_duty_per_crew := avg_duty_count
    max_duty_per_crew := max_duty_count
    min_duty_per_crew := min_duty_count
    duty_distribution_range := (max_duty_count : Int) - (min_duty_count : Int)
    compliance_rate := 1
    avg_preference_score := avg_pref_score
    fairness_score :=
      if max_duty_count ≠ 0 then
        1 - ((max_duty_count : ℚ) - (min_duty_count : ℚ)) / ((max_duty_count : ℚ) + 1)
      else 1 }

/-- `generate_roster` (`simple_opt.py:108-300`). -/
def generate_roster (db : Db) (period_start period_end : Int) (rules : RulesEngine) :
    List AssignmentEntry × Kpis :=
  let flights := periodFlights db period_start period_end
  let final := greedyRun db period_start period_end rules
  (final.assignments,
    computeKpis final.assignments flights.length final.crew_duty_count db.flights
      (currentPrefs db))

/-! ### Delay handling (`simple_opt.py:302-321`, `552-575`) -/

/-- `record_disruption` (`simple_opt.py:552-575`): "read last row, add one" id
allocation, then append and commit. -/
def record_disruption (db : Db) (flight_no : Option String) (disruption_type : String)
    (disruption_date : Int) (impact_duration : Option Int := none)
    (crew_id : Option Int := none) (reason : Option String := none)
    (resolution : Option String := none) : Db :=
  let next_id : Int :=
    match (db.disruptions.map (·.disruption_id)) with
    | [] => 1
    | i :: is => is.foldl max i + 1
  { db with disruptions := db.disruptions ++
      [{ disruption_id := next_id, flight_no := flight_no,
         disruption_type := disruption_type, disruption_date := disruption_date,
         impact_duration := impact_duration, crew_id := crew_id,
         reason := reason, resolution := resolution }] }

/-- The typed result of `propose_patch_for_delay`: either the
`{"error": "flight_not_found"}` dict or the patch dict. -/
inductive DelayPatch where
  | flight_not_found
  | patch (flight_id : Int) (flight_no : String) (new_sched_dep_utc new_sched_arr_utc : DateTime)
      (feasible : Bool)
deriving DecidableEq, Repr

/-- `Flight.query.filter(flight_no == fn).order_by(flight_date.desc()).first()`:
the first row carrying the maximal flight date among the matches. -/
def latestFlightByNo (flights : List FlightRow) (flight_no : String) : Option FlightRow :=
  (flights.filter (fun f => f.flight_no = flight_no)).foldl (fun best f =>
    match best with
    | none => some f
    | some b => if f.flight_date > b.flight_date then some f else some b) none

/-- `propose_patch_for_delay` (`simple_opt.py:302-321`): returns the updated
database (with the appended disruption record) and the typed result. -/
def propose_patch_for_delay (db : Db) (flight_no : String) (delay_minutes : Int)
    (rules : RulesEngine) : Db × DelayPatch :=
  match latestFlightByNo db.flights flight_no with
  | none => (db, DelayPatch.flight_not_found)
  | some f =>
      let db := record_disruption db (some flight_no) "delay" f.flight_date
        (some delay_minutes) none (some "Flight delayed") none
      let new_dep := f.sched_dep_utc + delay_minutes
      let new_arr := f.sched_arr_utc + delay_minutes
      let feasible := rules.duty_duration_ok new_dep new_arr
      (db, DelayPatch.patch f.flight_id f.flight_no new_dep new_arr feasible)

/-! ### ConstraintSolver (`app/optimizer/or_tools_opt.py`)

The CP-SAT model is embedded as a satisfaction predicate over boolean
assignment maps `sol : flight_id → crew_id → Bool` (one boolean variable per
(flight, crew) pair).  `solver.Solve` is an external search procedure; its
outcome is supplied as an explicit `(status, sol)` pair, and
`optimize_roster`'s dispatch on the status is embedded directly. -/

/-- The search parameters of a `cp_model.CpSolver()`.  The default leaves
`max_time_in_seconds` unset (the solver runs without a finite wall-clock
limit); `CrewRosteringOptimizer.__init__` (`or_tools_opt.py:19-23`) constructs
the solver with these defaults and never assigns a time limit. -/
structure CpSolverParameters where
  max_time_in_seconds : Option ℚ
deriving DecidableEq, Repr

def cpSolverDefaultParameters : CpSolverParameters where
  max_time_in_seconds := none

/-- The solver-relevant state established by
`CrewRosteringOptimizer.__init__`. -/
structure CrewRosteringOptimizerState where
  solverParameters : CpSolverParameters
deriving DecidableEq, Repr

def crewRosteringOptimizerInit : CrewRosteringOptimizerState where
  solverParameters := cpSolverDefaultParameters

/-- The data loaded and pre-filtered by `optimize_roster`
(`or_tools_opt.py:38-48`): the helper queries mirror `generate_roster`'s. -/
structure SolverInstance where
  flights : List FlightRow
  crew : List CrewRow
  qual_map : List QualRow
  pref_map : List PrefRow
  unavailable_crew_map : List AvailRow
deriving Repr

def buildSolverInstance (db : Db) (period_start period_end : Int) : SolverInstance where
  flights := periodFlights db period_start period_end
  crew := db.crew.filter (fun c => c.status = "Active")
  qual_map := currentQuals db
  pref_map := currentPrefs db
  unavailable_crew_map := approvedUnavail db period_start period_end

/-- `qual_map` membership as used by `_add_qualification_constraints`
(`or_tools_opt.py:164`): `crew_id in qual_map and aircraft in
qual_map[crew_id]`. -/
def qualMapHas (qual_map : List QualRow) (crew_id : Int) (aircraft_code : String) : Bool :=
  qual_map.any (fun q => q.crew_id = crew_id ∧ q.aircraft_code = aircraft_code)

/-- The availability test of `_add_availability_constraints`
(`or_tools_opt.py:176-181`). -/
def solverUnavailable (unavailable_crew_map : List AvailRow) (crew_id : Int)
    (flight_date : Int) : Bool :=
  unavailable_crew_map.any (fun r =>
    r.crew_id = crew_id ∧ r.unavailable_from ≤ flight_date ∧
      flight_date ≤ r.unavailable_to)

/-- The conjunction of all constraints posted on the CP-SAT model
(`_add_qualification_constraints`, `_add_availability_constraints`,
`_add_rules_constraints`): a boolean assignment is a feasible solution iff it
zeroes unqualified and unavailable pairs, covers each flight with exactly one
crew, and gives each crew at most one flight per calendar day. -/
def solverFeasible (inst : SolverInstance) (sol : Int → Int → Bool) : Bool :=
  -- qualification constraints: unqualified pairs are forced to 0
  (inst.flights.all (fun f => inst.crew.all (fun c =>
    qualMapHas inst.qual_map c.crew_id f.aircraft_code || !(sol f.flight_id c.crew_id)))) &&
  -- availability constraints: unavailable pairs are forced to 0
  (inst.flights.all (fun f => inst.crew.all (fun c =>
    !(solverUnavailable inst.unavailable_crew_map c.crew_id f.flight_date) ||
      !(sol f.flight_id c.crew_id)))) &&
  -- each flight has exactly one crew assignment
  (inst.flights.all (fun f =>
    (inst.crew.countP (fun c => sol f.flight_id c.crew_id)) == 1)) &&
  -- at most one flight per crew per calendar day
  (inst.crew.all (fun c => inst.flights.all (fun f =>
    (inst.flights.countP (fun g => g.flight_date == f.flight_date &&
      sol g.flight_id c.crew_id)) ≤ 1)))

/-- The decoding loop of `_process_solution` (`or_tools_opt.py:282-309`): for
each flight, the first crew (in roster order) whose variable is set, else the
explicit UNASSIGNED entry. -/
def decodeSolution (inst : SolverInstance) (sol : Int → Int → Bool) :
    List AssignmentEntry :=
  inst.flights.map (fun f =>
    match inst.crew.find? (fun c => sol f.flight_id c.crew_id) with
    | some c =>
        { crew_id := some c.crew_id, crew_name := some c.name, flight_id := f.flight_id,
          duty_start_utc := f.sched_dep_utc, duty_end_utc := f.sched_arr_utc }
    | none =>
        { crew_id := none, crew_name := none, flight_id := f.flight_id,
          duty_start_utc := f.sched_dep_utc, duty_end_utc := f.sched_arr_utc,
          note := some "UNASSIGNED" })

/-- The `crew_duty_count` dict accumulated during decoding. -/
def decodeDutyCount (inst : SolverInstance) (sol : Int → Int → Bool) :
    List (Int × Nat) :=
  inst.flights.foldl (fun m f =>
    match inst.crew.find? (fun c => sol f.flight_id c.crew_id) with
    | some c => aset m c.crew_id ((alookup m c.crew_id).getD 0 + 1)
    | none => m) []

/-- `_process_solution` (`or_tools_opt.py:273-343`): decode the solution and
compute the same KPI record as `generate_roster` (the per-assignment
preference re-scoring looks flights up in the period list `inst.flights`). -/
def processSolution (inst : SolverInstance) (sol : Int → Int → Bool) :
    List AssignmentEntry × Kpis :=
  let assignments := decodeSolution inst sol
  (assignments,
    computeKpis assignments inst.flights.length (decodeDutyCount inst sol)
      inst.flights inst.pref_map)

/-- The terminal statuses of `cp_model.CpSolver.Solve`. -/
inductive CpStatus where
  | optimal | feasible | infeasible | model_invalid | unknown
deriving DecidableEq, Repr

/-- `optimize_roster` (`or_tools_opt.py:25-74`) with the external solve
outcome supplied explicitly: on OPTIMAL/FEASIBLE the solution is decoded; on
any other status the function falls back to `generate_roster` over the same
period and inputs. -/
def optimize_roster (db : Db) (period_start period_end : Int) (rules : RulesEngine)
    (status : CpStatus) (sol : Int → Int → Bool) : List AssignmentEntry × Kpis :=
  if status = CpStatus.optimal ∨ status = CpStatus.feasible then
    processSolution (buildSolverInstance db period_start period_end) sol
  else
    generate_roster db period_start period_end rules

/-! ### ConflictDetector (`app/optimizer/conflict_detector.py`)

Conflicts are embedded with their decision-relevant fields (`type`, crew,
severity, flight ids, violation/penalty payload); the purely presentational
`description`/`timestamp` strings of the source dicts are not modelled. -/

structure Conflict where
  ctype : String
  crew_id : Int
  crew_name : String
  severity : String
  flight_ids : List Int
  violation_type : Option String := none
  penalty_type : Option String := none
  penalty_value : Option ℚ := none
deriving DecidableEq, Repr

/-- The `DutyPeriod ⋈ DutyFlight ⋈ Flight ⋈ Crew` query of `detect_conflicts`
(`conflict_detector.py:30-45`), restricted to duty windows inside the audited
period (the persistence layer compares the raw start/end values against the
period bounds). -/
def dutyJoinRows (db : Db) (period_start period_end : DateTime) :
    List (DutyPeriodRow × FlightRow × CrewRow) :=
  db.dutyPeriods.flatMap (fun dp =>
    (db.dutyFlights.filter (fun df => df.duty_id = dp.duty_id)).flatMap (fun df =>
      (db.flights.filter (fun f => f.flight_id = df.flight_id)).flatMap (fun f =>
        (db.crew.filter (fun c => c.crew_id = dp.crew_id)).filterMap (fun c =>
          if period_start ≤ dp.duty_start_utc ∧ dp.duty_end_utc ≤ period_end then
            some (dp, f, c)
          else none))))

/-- The crew ids of `crew_duties`, in first-occurrence (dict insertion)
order. -/
def crewGroupKeys (rows : List (DutyPeriodRow × FlightRow × CrewRow)) : List Int :=
  rows.foldl (fun ks r => if r.2.2.crew_id ∈ ks then ks else ks ++ [r.2.2.crew_id]) []

/-- `crew_duties[k]["duties"]` in append (join) order. -/
def crewDuties (rows : List (DutyPeriodRow × FlightRow × CrewRow)) (k : Int) :
    List (DutyPeriodRow × FlightRow) :=
  (rows.filter (fun r => r.2.2.crew_id = k)).map (fun r => (r.1, r.2.1))

/-- Successive pairs of a list (`duties[i]`, `duties[i+1]`). -/
def consecPairs {α : Type} (l : List α) : List (α × α) := l.zip l.tail

/-- The overlapping-duty scan over a crew's duties sorted by start time
(`conflict_detector.py:85-102`). -/
def overlapConflicts (crewRow : CrewRow)
    (sorted : List (DutyPeriodRow × FlightRow)) : List Conflict :=
  (consecPairs sorted).flatMap (fun p =>
    if p.1.1.duty_end_utc > p.2.1.duty_start_utc then
      [{ ctype := "overlapping_duties", crew_id := crewRow.crew_id,
         crew_name := crewRow.name, severity := "high",
         flight_ids := [p.1.2.flight_id, p.2.2.flight_id] }]
    else [])

/-- The per-duty compliance checks (`conflict_detector.py:104-178`): hard
violations as high-severity conflicts, then positive soft penalties as
medium-severity conflicts. -/
def perDutyConflicts (e : HardSoftRulesEngine) (crewRow : CrewRow)
    (duties : List (DutyPeriodRow × FlightRow)) (numCrewGroups : Nat)
    (d : DutyPeriodRow × FlightRow) : List Conflict :=
  let dp := d.1
  let fl := d.2
  let wk := weekIndexOf dp.duty_start_utc
  let mk := monthKeyOf dp.duty_start_utc
  let weekly_duty_durations :=
    (duties.filter (fun x => weekIndexOf x.1.duty_start_utc = wk)).map
      (fun x => x.1.duty_end_utc - x.1.duty_start_utc)
  let monthly_duty_durations :=
    (duties.filter (fun x => monthKeyOf x.1.duty_start_utc = mk)).map
      (fun x => x.1.duty_end_utc - x.1.duty_start_utc)
  let weekly_night_duties : Int :=
    (duties.countP (fun x =>
      e.is_night_duty x.1.duty_start_utc x.1.duty_end_utc &&
        weekIndexOf x.1.duty_start_utc == wk) : Nat)
  let consecutive_days : Int := 1
  let avg_duty_count : ℚ :=
    if numCrewGroups = 0 then 0 else (duties.length : ℚ) / (numCrewGroups : ℚ)
  let hard := e.check_hard_rule_violations dp.duty_start_utc dp.duty_end_utc
    crewRow.rank consecutive_days weekly_duty_durations monthly_duty_durations
    weekly_night_duties (dp.duty_end_utc - dp.duty_start_utc)
    (dp.duty_end_utc - dp.duty_start_utc)
  let hardConfs := hard.map (fun v =>
    { ctype := "hard_rule_violation", crew_id := crewRow.crew_id,
      crew_name := crewRow.name, severity := "high", flight_ids := [fl.flight_id],
      violation_type := some v : Conflict })
  let soft := e.check_soft_rule_violations dp.duty_start_utc dp.duty_end_utc
    crewRow.rank consecutive_days weekly_night_duties (duties.length : Int)
    avg_duty_count
  let softConfs := (soft.filter (fun p => p.2 > 0)).map (fun p =>
    { ctype := "soft_rule_violation", crew_id := crewRow.crew_id,
      crew_name := crewRow.name, severity := "medium", flight_ids := [fl.flight_id],
      penalty_type := some p.1, penalty_value := some p.2 : Conflict })
  hardConfs ++ softConfs

/-- The per-crew section of `detect_conflicts`: overlap scan followed by the
per-duty checks over the start-sorted duty list. -/
def crewSectionConflicts (e : HardSoftRulesEngine)
    (rows : List (DutyPeriodRow × FlightRow × CrewRow)) (numCrewGroups : Nat)
    (k : Int) : List Conflict :=
  match (rows.find? (fun r => r.2.2.crew_id == k)).map (·.2.2) with
  | none => []   -- unreachable: keys are drawn from the rows
  | some crewRow =>
      let duties := crewDuties rows k
      let sorted := List.insertionSort
        (fun a b => a.1.duty_start_utc ≤ b.1.duty_start_utc) duties
      overlapConflicts crewRow sorted ++
        sorted.flatMap (perDutyConflicts e crewRow duties numCrewGroups)

/-- The qualification-mismatch scan (`conflict_detector.py:180-211`), over the
unfiltered qualification table with dict (last-wins) lookup. -/
def qualMismatchConflicts (db : Db)
    (rows : List (DutyPeriodRow × FlightRow × CrewRow)) : List Conflict :=
  rows.flatMap (fun r =>
    let fl := r.2.1
    let c := r.2.2
    match qualLookup db.quals c.crew_id fl.aircraft_code with
    | some q =>
        match q.expires_on with
        | some e => if e < fl.flight_date then
            [{ ctype := "qualification_mismatch", crew_id := c.crew_id,
               crew_name := c.name, severity := "high",
               flight_ids := [fl.flight_id] }]
          else []
        | none => []
    | none =>
        [{ ctype := "qualification_mismatch", crew_id := c.crew_id,
           crew_name := c.name, severity := "high", flight_ids := [fl.flight_id] }])

/-- `detect_conflicts` (`conflict_detector.py:10-213`). -/
def detect_conflicts (db : Db) (period_start period_end : DateTime)
    (e : HardSoftRulesEngine) : List Conflict :=
  (crewGroupKeys (dutyJoinRows db period_start period_end)).flatMap
    (crewSectionConflicts e (dutyJoinRows db period_start period_end)
      (crewGroupKeys (dutyJoinRows db period_start period_end)).length) ++
    qualMismatchConflicts db (dutyJoinRows db period_start period_end)

/-! ### Roster commit (`app/services/orchestrator.py:96-159`)

`save_assignments_to_duty_tables` is embedded as the sequence of *committed*
database states it produces: the source issues `db.commit()` twice — once
right after deleting every `DutyFlight`/`DutyPeriod` row, and once after
inserting the new rows — so two distinct states become durable. -/

/-- `db.query(DutyPeriod).order_by(duty_id.desc()).first()` id allocation. -/
def nextDutyId (l : List DutyPeriodRow) : Int :=
  match l.map (·.duty_id) with
  | [] => 1
  | i :: is => is.foldl max i + 1

/-- The per-assignment insert of the commit loop (`orchestrator.py:130-157`):
look the flight up (`continue` when absent), allocate the next duty id, and
add the `DutyPeriod` and `DutyFlight` rows. -/
def saveDutyInsert (db : Db) (k : Int) (base_iata : String) (st : Db)
    (a : AssignmentEntry) : Db :=
  match db.flights.find? (fun f => f.flight_id == a.flight_id) with
  | none => st   -- `continue`
  | some _ =>
      let duty_id := nextDutyId st.dutyPeriods
      { st with
        dutyPeriods := st.dutyPeriods ++
          [{ duty_id := duty_id, crew_id := k, duty_start_utc := a.duty_start_utc,
             duty_end_utc := a.duty_end_utc, base_iata := base_iata }],
        dutyFlights := st.dutyFlights ++
          [{ duty_id := duty_id, flight_id := a.flight_id, leg_seq := 1 }] }

/-- One crew group of the commit loop (`orchestrator.py:117-157`): derive the
base station, then insert every assignment of the group. -/
def saveCrewGroup (db : Db) (kept : List AssignmentEntry) (st : Db) (k : Int) : Db :=
  let crew_assignments := kept.filter (fun a => a.crew_id == some k)
  let base_iata :=
    match db.crew.find? (fun c => c.crew_id == k) with
    | some c => c.base_iata
    | none =>
        match crew_assignments.head? with
        | some a0 =>
            match db.flights.find? (fun f => f.flight_id == a0.flight_id) with
            | some fl => fl.dep_iata
            | none => "DEL"
        | none => "DEL"
  crew_assignments.foldl (saveDutyInsert db k base_iata) st

/-- `save_assignments_to_duty_tables` (`orchestrator.py:96-159`): returns the
list of committed states, in order. -/
def save_assignments_to_duty_tables (db : Db) (assignments : List AssignmentEntry) :
    List Db :=
  -- clear all duty data, then commit
  let s1 : Db := { db with dutyFlights := [], dutyPeriods := [] }
  -- group assignments by crew (truthy crew_id, not marked UNASSIGNED)
  let kept := assignments.filter (fun a =>
    crewIdTruthy a && !(a.note == some "UNASSIGNED"))
  let keys := kept.foldl (fun ks a =>
    match a.crew_id with
    | some k => if k ∈ ks then ks else ks ++ [k]
    | none => ks) []
  [s1, keys.foldl (saveCrewGroup db kept) s1]

/-! ### Concrete instances (used to instantiate the theorems below) -/

def exCrew : CrewRow :=
  { crew_id := 1, name := "Asha", rank := "Captain", base_iata := "DEL",
    status := "Active" }

def exFlight1 : FlightRow :=
  { flight_id := 101, flight_no := "6E101", flight_date := 10, dep_iata := "DEL",
    arr_iata := "BOM", sched_dep_utc := 10 * 1440 + 600,
    sched_arr_utc := 10 * 1440 + 720, aircraft_code := "A320" }

def exFlight2 : FlightRow :=
  { flight_id := 102, flight_no := "6E102", flight_date := 11, dep_iata := "BOM",
    arr_iata := "DEL", sched_dep_utc := 11 * 1440 + 600,
    sched_arr_utc := 11 * 1440 + 720, aircraft_code := "A320" }

def exQual : QualRow :=
  { crew_id := 1, aircraft_code := "A320", qualified_on := 0, expires_on := none }

def exDb : Db :=
  { flights := [exFlight1, exFlight2], crew := [exCrew], quals := [exQual],
    today := 5 }

/-- A solution picking crew 1 for every flight. -/
def exSol : Int → Int → Bool := fun _fid cid => cid == 1

/-- A qualification that is valid today (day 5) but expires (day 7) before
`exFlight1`'s flight date (day 10). -/
def exQualExpiring : QualRow :=
  { crew_id := 1, aircraft_code := "A320", qualified_on := 0, expires_on := some 7 }

def exDbExpiring : Db :=
  { flights := [exFlight1], crew := [exCrew], quals := [exQualExpiring], today := 5 }

/-- A pre-existing committed duty row (with its flight link), far outside any
regenerated period. -/
def exDutyOld : DutyPeriodRow :=
  { duty_id := 7, crew_id := 1, duty_start_utc := 100, duty_end_utc := 200,
    base_iata := "DEL" }

def exDbDuty : Db :=
  { flights := [exFlight1], crew := [exCrew], dutyPeriods := [exDutyOld],
    dutyFlights := [{ duty_id := 7, flight_id := 101, leg_seq := 1 }] }

/-- Two committed duty periods for the same crew on day 10: 10:00-12:00 and
11:00-13:00 (overlapping). -/
def exDuty1 : DutyPeriodRow :=
  { duty_id := 1, crew_id := 1, duty_start_utc := 10 * 1440 + 600,
    duty_end_utc := 10 * 1440 + 720, base_iata := "DEL" }

def exDuty2 : DutyPeriodRow :=
  { duty_id := 2, crew_id := 1, duty_start_utc := 10 * 1440 + 660,
    duty_end_utc := 10 * 1440 + 780, base_iata := "DEL" }

/-! ### General auxiliary lemmas -/

lemma head?_mem {α : Type} {l : List α} {a : α} (h : l.head? = some a) : a ∈ l := by
  cases l with
  | nil => simp at h
  | cons x xs =>
      simp only [List.head?_cons, Option.some_inj] at h
      exact h ▸ List.mem_cons_self x xs

lemma foldl_inv {α σ : Type} (P : σ → Prop) (g : σ → α → σ) :
    ∀ (l : List α) (init : σ), P init →
      (∀ s a, a ∈ l → P s → P (g s a)) → P (l.foldl g init) := by
  intro l
  induction l with
  | nil => intro init h _; simpa using h
  | cons x xs ih =>
      intro init h hstep
      simp only [List.foldl_cons]
      exact ih _ (hstep init x (List.mem_cons_self x xs) h)
        (fun s a ha hs => hstep s a (List.mem_cons_of_mem x ha) hs)

lemma qualLookup_aux (cid : Int) (ac : String) :
    ∀ (l : List QualRow) (acc : Option QualRow) (q : QualRow),
      l.foldl (fun acc q =>
        if q.crew_id = cid ∧ q.aircraft_code = ac then some q else acc) acc = some q →
      acc = some q ∨ (q ∈ l ∧ q.crew_id = cid ∧ q.aircraft_code = ac) := by
  intro l
  induction l with
  | nil => intro acc q h; exact Or.inl (by simpa using h)
  | cons x xs ih =>
      intro acc q h
      simp only [List.foldl_cons] at h
      rcases ih _ q h with hacc | hmem
      · by_cases hx : x.crew_id = cid ∧ x.aircraft_code = ac
        · rw [if_pos hx] at hacc
          right
          exact ⟨by simp [← Option.some_inj.mp hacc], (Option.some_inj.mp hacc) ▸ hx⟩
        · rw [if_neg hx] at hacc
          exact Or.inl hacc
      · exact Or.inr ⟨List.mem_cons_of_mem x hmem.1, hmem.2⟩

/-- A successful dict lookup returns a stored row with the matching key. -/
lemma qualLookup_eq_some {l : List QualRow} {cid : Int} {ac : String} {q : QualRow}
    (h : qualLookup l cid ac = some q) :
    q ∈ l ∧ q.crew_id = cid ∧ q.aircraft_code = ac := by
  rcases qualLookup_aux cid ac l none q h with hacc | hmem
  · simp at hacc
  · exact hmem

/-- `is_crew_qualified_for_flight = true` unpacks to a stored qualification
row for the aircraft that is unexpired as of the flight date. -/
lemma is_crew_qualified_spec {cid : Int} {f : FlightRow} {quals : List QualRow}
    {fd : Int} (h : is_crew_qualified_for_flight cid f quals fd = true) :
    ∃ q ∈ quals, q.crew_id = cid ∧ q.aircraft_code = f.aircraft_code ∧
      (q.expires_on = none ∨ ∃ e, q.expires_on = some e ∧ fd ≤ e) := by
  unfold is_crew_qualified_for_flight at h
  split at h
  · simp at h
  next q hq =>
    obtain ⟨hmem, hcid, hac⟩ := qualLookup_eq_some hq
    refine ⟨q, hmem, hcid, hac, ?_⟩
    split at h
    next e he =>
      right
      refine ⟨e, he, ?_⟩
      split at h
      · simp at h
      next hlt => omega
    next he => exact Or.inl he

/-- `is_crew_available = true` means no record of the scanned list covers the
date for this crew. -/
lemma is_crew_available_spec {cid : Int} {fd : Int} {recs : List AvailRow}
    (h : is_crew_available cid fd recs = true) :
    ∀ r ∈ recs, ¬(r.crew_id = cid ∧ r.unavailable_from ≤ fd ∧ fd ≤ r.unavailable_to) := by
  intro r hr
  unfold is_crew_available at h
  rw [List.all_eq_true] at h
  have h' := h r hr
  rw [Bool.not_eq_true', decide_eq_false_iff_not] at h'
  exact h'

/-! ### Structural lemmas about the greedy loop -/

/-- Members of the scored (hence sorted) list are eligible active crew. -/
lemma greedySorted_mem {ctx : GreedyCtx} {s : GState} {f : FlightRow}
    {c : CrewRow} {q : ℚ} (h : (c, q) ∈ greedySorted ctx s f) :
    c ∈ ctx.crew ∧ greedyEligible ctx s f c = true := by
  unfold greedySorted at h
  rw [List.mem_insertionSort] at h
  unfold greedyScored at h
  obtain ⟨c', hc', heq⟩ := List.mem_map.mp h
  obtain ⟨hmem, helig⟩ := List.mem_filter.mp hc'
  obtain ⟨h1, -⟩ := Prod.mk.injEq .. ▸ heq
  exact ⟨h1 ▸ hmem, h1 ▸ helig⟩

/-- Each greedy iteration appends exactly one entry for the processed flight:
either an assignment to an eligible crew member or the explicit
UNASSIGNED marker. -/
lemma greedyStep_shape (ctx : GreedyCtx) (s : GState) (f : FlightRow) :
    ∃ e : AssignmentEntry,
      (greedyStep ctx s f).assignments = s.assignments ++ [e] ∧
      e.flight_id = f.flight_id ∧
      ((e.crew_id = none ∧ e.note = some "UNASSIGNED") ∨
        (∃ c ∈ ctx.crew, greedyEligible ctx s f c = true ∧
          e.crew_id = some c.crew_id ∧ e.note = none)) := by
  cases h : (greedySorted ctx s f).head? with
  | none =>
      refine ⟨{ crew_id := none, crew_name := none, flight_id := f.flight_id,
                duty_start_utc := f.sched_dep_utc, duty_end_utc := f.sched_arr_utc,
                note := some "UNASSIGNED" }, ?_, rfl, Or.inl ⟨rfl, rfl⟩⟩
      simp only [greedyStep, h]
  | some cq =>
      obtain ⟨c, q⟩ := cq
      obtain ⟨hc, helig⟩ := greedySorted_mem (head?_mem h)
      refine ⟨{ crew_id := some c.crew_id, crew_name := some c.name,
                flight_id := f.flight_id, duty_start_utc := f.sched_dep_utc,
                duty_end_utc := f.sched_arr_utc, note := none }, ?_, rfl,
              Or.inr ⟨c, hc, helig, rfl, rfl⟩⟩
      simp only [greedyStep, h]

/-- The assignment list grows by exactly the processed flights' ids. -/
lemma greedyFold_map_flight_id (ctx : GreedyCtx) :
    ∀ (l : List FlightRow) (s : GState),
      ((l.foldl (greedyStep ctx) s).assignments).map (·.flight_id) =
        (s.assignments.map (·.flight_id)) ++ l.map (·.flight_id) := by
  intro l
  induction l with
  | nil => intro s; simp
  | cons f fs ih =>
      intro s
      obtain ⟨e, he, hfid, -⟩ := greedyStep_shape ctx s f
      simp only [List.foldl_cons, List.map_cons]
      rw [ih, he]
      simp [hfid]

/-- Every entry of the final assignment list is either a real assignment to
some eligible crew for a flight of the processed list, or the UNASSIGNED
marker. -/
lemma greedyFold_entry_inv (ctx : GreedyCtx) (l : List FlightRow) :
    ∀ a ∈ ((l.foldl (greedyStep ctx) {}).assignments),
      (a.crew_id = none ∧ a.note = some "UNASSIGNED") ∨
      (∃ f ∈ l, a.flight_id = f.flight_id ∧
        ∃ c ∈ ctx.crew, a.crew_id = some c.crew_id ∧ a.note = none ∧
          is_crew_qualified_for_flight c.crew_id f ctx.qual_map f.flight_date = true ∧
          is_crew_available c.crew_id f.flight_date ctx.unavailable_crew_map = true) := by
  have main := foldl_inv (fun (s : GState) => ∀ a ∈ s.assignments,
      (a.crew_id = none ∧ a.note = some "UNASSIGNED") ∨
      (∃ f ∈ l, a.flight_id = f.flight_id ∧
        ∃ c ∈ ctx.crew, a.crew_id = some c.crew_id ∧ a.note = none ∧
          is_crew_qualified_for_flight c.crew_id f ctx.qual_map f.flight_date = true ∧
          is_crew_available c.crew_id f.flight_date ctx.unavailable_crew_map = true))
    (greedyStep ctx) l {} (by intro a ha; exact absurd ha (List.not_mem_nil a))
  refine main ?_
  intro s f hf hP a ha
  obtain ⟨e, he, hfid, hcase⟩ := greedyStep_shape ctx s f
  rw [he, List.mem_append] at ha
  rcases ha with ha | ha
  · exact hP a ha
  · have hae : a = e := by simpa using ha
    subst hae
    rcases hcase with ⟨h1, h2⟩ | ⟨c, hc, helig, hcid, hnote⟩
    · exact Or.inl ⟨h1, h2⟩
    · have hqa : is_crew_qualified_for_flight c.crew_id f ctx.qual_map f.flight_date = true ∧
          is_crew_available c.crew_id f.flight_date ctx.unavailable_crew_map = true := by
        unfold greedyEligible at helig
        simp only [Bool.and_eq_true] at helig
        exact ⟨helig.1.1.1.1.1.1, helig.1.1.1.1.1.2⟩
      exact Or.inr ⟨f, hf, hfid, c, hc, hcid, hnote, hqa.1, hqa.2⟩

/-! ### Structural lemmas about the solver decoding and data filters -/

lemma mem_periodFlights {db : Db} {ps pe : Int} {f : FlightRow}
    (h : f ∈ periodFlights db ps pe) :
    f ∈ db.flights ∧ ps ≤ f.flight_date ∧ f.flight_date ≤ pe := by
  unfold periodFlights at h
  rw [List.mem_insertionSort] at h
  obtain ⟨hm, hp⟩ := List.mem_filter.mp h
  exact ⟨hm, by simpa using hp⟩

lemma currentQuals_sub {db : Db} {q : QualRow} (h : q ∈ currentQuals db) :
    q ∈ db.quals ∧ (q.expires_on = none ∨ ∃ e, q.expires_on = some e ∧ db.today ≤ e) := by
  obtain ⟨hm, hp⟩ := List.mem_filter.mp h
  refine ⟨hm, ?_⟩
  rcases he : q.expires_on with _ | e
  · exact Or.inl rfl
  · right
    refine ⟨e, rfl, ?_⟩
    rw [he] at hp
    simpa using hp

lemma mem_approvedUnavail {db : Db} {ps pe : Int} {r : AvailRow} (hr : r ∈ db.avail)
    (hs : r.status = "approved") (h1 : r.unavailable_from ≤ pe)
    (h2 : ps ≤ r.unavailable_to) : r ∈ approvedUnavail db ps pe :=
  List.mem_filter.mpr ⟨hr, by simp [hs, h1, h2]⟩

lemma qualMapHas_spec {l : List QualRow} {cid : Int} {ac : String}
    (h : qualMapHas l cid ac = true) :
    ∃ q ∈ l, q.crew_id = cid ∧ q.aircraft_code = ac := by
  unfold qualMapHas at h
  rw [List.any_eq_true] at h
  obtain ⟨q, hq, hpq⟩ := h
  exact ⟨q, hq, by simpa using hpq⟩

lemma solverUnavailable_false {l : List AvailRow} {cid fd : Int}
    (h : solverUnavailable l cid fd = false) :
    ∀ r ∈ l, ¬(r.crew_id = cid ∧ r.unavailable_from ≤ fd ∧ fd ≤ r.unavailable_to) := by
  intro r hr hcontra
  have ht : solverUnavailable l cid fd = true := by
    unfold solverUnavailable
    rw [List.any_eq_true]
    exact ⟨r, hr, by simpa using hcontra⟩
  rw [h] at ht
  cases ht

/-- The qualification and availability constraints extracted from a feasible
solution: any selected (flight, crew) pair is qualified per the solver's
qualification map and not covered by an approved unavailability record. -/
lemma solverFeasible_spec {inst : SolverInstance} {sol : Int → Int → Bool}
    (h : solverFeasible inst sol = true) :
    (∀ f ∈ inst.flights, ∀ c ∈ inst.crew, sol f.flight_id c.crew_id = true →
      qualMapHas inst.qual_map c.crew_id f.aircraft_code = true) ∧
    (∀ f ∈ inst.flights, ∀ c ∈ inst.crew, sol f.flight_id c.crew_id = true →
      solverUnavailable inst.unavailable_crew_map c.crew_id f.flight_date = false) := by
  unfold solverFeasible at h
  simp only [Bool.and_eq_true] at h
  obtain ⟨⟨⟨hq, ha⟩, -⟩, -⟩ := h
  constructor
  · intro f hf c hc hs
    rw [List.all_eq_true] at hq
    have h1 := hq f hf
    rw [List.all_eq_true] at h1
    have h2 := h1 c hc
    rw [Bool.or_eq_true] at h2
    rcases h2 with h2 | h2
    · exact h2
    · rw [Bool.not_eq_true', hs] at h2
      cases h2
  · intro f hf c hc hs
    rw [List.all_eq_true] at ha
    have h1 := ha f hf
    rw [List.all_eq_true] at h1
    have h2 := h1 c hc
    rw [Bool.or_eq_true] at h2
    rcases h2 with h2 | h2
    · rwa [Bool.not_eq_true'] at h2
    · rw [Bool.not_eq_true', hs] at h2
      cases h2

lemma decodeSolution_map_flight_id (inst : SolverInstance) (sol : Int → Int → Bool) :
    (decodeSolution inst sol).map (·.flight_id) = inst.flights.map (·.flight_id) := by
  unfold decodeSolution
  rw [List.map_map]
  refine List.map_congr_left ?_
  intro f _
  simp only [Function.comp]
  cases inst.crew.find? (fun c => sol f.flight_id c.crew_id) <;> rfl

/-- Every decoded entry refers to a period flight and is either an assignment
to a crew member selected by the solution or the UNASSIGNED marker. -/
lemma decodeSolution_entry (inst : SolverInstance) (sol : Int → Int → Bool) :
    ∀ a ∈ decodeSolution inst sol,
      ∃ f ∈ inst.flights, a.flight_id = f.flight_id ∧
        ((a.crew_id = none ∧ a.note = some "UNASSIGNED") ∨
          (∃ c ∈ inst.crew, a.crew_id = some c.crew_id ∧ a.note = none ∧
            sol f.flight_id c.crew_id = true)) := by
  intro a ha
  unfold decodeSolution at ha
  obtain ⟨f, hf, heq⟩ := List.mem_map.mp ha
  refine ⟨f, hf, ?_⟩
  cases h : inst.crew.find? (fun c => sol f.flight_id c.crew_id) with
  | none =>
      rw [h] at heq
      subst heq
      exact ⟨rfl, Or.inl ⟨rfl, rfl⟩⟩
  | some c =>
      rw [h] at heq
      subst heq
      refine ⟨rfl, Or.inr ⟨c, List.mem_of_find?_eq_some h, rfl, rfl, ?_⟩⟩
      have := List.find?_some h
      simpa using this

/-! ### Claim theorems -/

lemma latestFlightByNo_eq_none {l : List FlightRow} {fn : String}
    (h : ∀ f ∈ l, f.flight_no ≠ fn) : latestFlightByNo l fn = none := by
  unfold latestFlightByNo
  have hnil : l.filter (fun f => f.flight_no = fn) = [] := by
    rw [List.filter_eq_nil_iff]
    intro f hf
    simpa using h f hf
  rw [hnil]
  rfl

/-- C5: `is_night_duty` does NOT classify a duty that spans the entire
22:00-06:00 night window across midnight as a night duty.  The failing input
is a duty from 21:00 (day 0, minute 1260) to 07:00 of the next day (minute
1860): the start lies before the window opens (hour 21), the end after it
closes (hour 7), yet both engines return `false`, because the source computes
`night_end` as 06:00 of the *start's own day*, so its guard
`night_end > night_start` (06:00 > 22:00 of the same day) is always false and
the midnight-crossing branch is unreachable. -/
theorem c5_night_window_crossing_misclassified :
    ({} : RulesEngine).is_night_duty 1260 1860 = false ∧
    ({} : HardSoftRulesEngine).is_night_duty 1260 1860 = false ∧
    hourOf 1260 = 21 ∧ hourOf 1860 = 7 ∧ dateOf 1860 = dateOf 1260 + 1 := by
  decide

/-- C4: after `GreedyAssigner` assigns the same crew two flights on
consecutive calendar days (day 10 and day 11), the crew's consecutive-day
streak is 1, not 2: the source overwrites `crew_last_duty_end` with the new
duty's end *before* the consecutive-day comparison reads it back, so the
comparison checks the new duty's start against the new duty's own end and the
streak always resets. -/
theorem c4_consecutive_streak_always_resets :
    ((greedyRun exDb 5 20 {}).assignments.map (fun a => (a.flight_id, a.crew_id)) =
      [(101, some 1), (102, some 1)]) ∧
    exFlight2.flight_date = exFlight1.flight_date + 1 ∧
    (greedyRun exDb 5 20 {}).crew_consecutive_days = [(1, 1)] := by
  decide

/-- C9: `propose_patch_for_delay` returns the typed `flight_not_found` result
when no flight matches the flight number, and otherwise returns the scheduled
departure and arrival each shifted by exactly `delay_minutes`, with the
feasibility flag computed by the unchanged duty-duration rule on the shifted
window; it never raises (it is a total function into the typed result). -/
theorem c9_delay_patch_shifts_by_delta :
    ∀ (db : Db) (fn : String) (d : Int) (rules : RulesEngine),
      ((∀ f ∈ db.flights, f.flight_no ≠ fn) →
        (propose_patch_for_delay db fn d rules).2 = DelayPatch.flight_not_found) ∧
      (∀ f, latestFlightByNo db.flights fn = some f →
        (propose_patch_for_delay db fn d rules).2 =
          DelayPatch.patch f.flight_id f.flight_no (f.sched_dep_utc + d)
            (f.sched_arr_utc + d)
            (rules.duty_duration_ok (f.sched_dep_utc + d) (f.sched_arr_utc + d))) := by
  intro db fn d rules
  constructor
  · intro h
    unfold propose_patch_for_delay
    rw [latestFlightByNo_eq_none h]
  · intro f hf
    unfold propose_patch_for_delay
    rw [hf]

theorem c9_delay_patch_shifts_by_delta_witness :
    latestFlightByNo exDb.flights "6E101" = some exFlight1 ∧
    (propose_patch_for_delay exDb "6E101" 60 ({} : RulesEngine)).2 =
      DelayPatch.patch 101 "6E101" (10 * 1440 + 660) (10 * 1440 + 780) true := by
  constructor
  · decide
  · have h := (c9_delay_patch_shifts_by_delta exDb "6E101" 60 {}).2 exFlight1 (by decide)
    rw [h]
    decide

/-- C6 (counterexample): the claim asserts the solve call runs under a
bounded wall-clock budget, but `CrewRosteringOptimizer.__init__` constructs
`cp_model.CpSolver()` with default parameters and never assigns
`max_time_in_seconds`, so no finite wall-clock limit is configured. -/
theorem c6_no_time_budget_counterexample :
    ¬ ∃ budget : ℚ,
        crewRosteringOptimizerInit.solverParameters.max_time_in_seconds = some budget := by
  rintro ⟨b, hb⟩
  simp [crewRosteringOptimizerInit, cpSolverDefaultParameters] at hb

/-- C6 (amended): the solver runs with CP-SAT default search parameters — no
wall-clock limit is configured — and whenever the solve status is neither
OPTIMAL nor FEASIBLE, `optimize_roster` returns exactly the result of
`generate_roster` over the identical period and inputs, never an error. -/
theorem c6_fallback_to_greedy :
    crewRosteringOptimizerInit.solverParameters.max_time_in_seconds = none ∧
    ∀ (db : Db) (ps pe : Int) (rules : RulesEngine) (status : CpStatus)
      (sol : Int → Int → Bool),
      status ≠ CpStatus.optimal → status ≠ CpStatus.feasible →
      optimize_roster db ps pe rules status sol = generate_roster db ps pe rules := by
  refine ⟨rfl, ?_⟩
  intro db ps pe rules status sol h1 h2
  unfold optimize_roster
  rw [if_neg]
  rintro (h | h)
  · exact h1 h
  · exact h2 h

theorem c6_fallback_to_greedy_witness :
    CpStatus.infeasible ≠ CpStatus.optimal ∧ CpStatus.infeasible ≠ CpStatus.feasible ∧
    optimize_roster exDb 5 20 {} CpStatus.infeasible exSol =
      generate_roster exDb 5 20 {} :=
  ⟨by decide, by decide,
    c6_fallback_to_greedy.2 exDb 5 20 {} CpStatus.infeasible exSol (by decide) (by decide)⟩

/-- C1: both strategies emit exactly one entry per period flight — the
assignment lists' flight ids coincide with the (departure-sorted) period
flight ids, which are a permutation of the period filter of the flight table,
so no flight is omitted or duplicated — and every entry either carries an
assigned crew or is explicitly marked UNASSIGNED; the greedy scan is total,
so a flight without an eligible candidate yields the UNASSIGNED entry rather
than an error. -/
theorem c1_every_flight_exactly_once :
    ∀ (db : Db) (ps pe : Int) (rules : RulesEngine) (sol : Int → Int → Bool),
      ((generate_roster db ps pe rules).1.map (·.flight_id) =
        (periodFlights db ps pe).map (·.flight_id)) ∧
      (((periodFlights db ps pe).map (·.flight_id)).Perm
        ((db.flights.filter (fun f =>
          ps ≤ f.flight_date ∧ f.flight_date ≤ pe)).map (·.flight_id))) ∧
      (∀ a ∈ (generate_roster db ps pe rules).1,
        (∃ cid, a.crew_id = some cid ∧ a.note = none) ∨
        (a.crew_id = none ∧ a.note = some "UNASSIGNED")) ∧
      ((processSolution (buildSolverInstance db ps pe) sol).1.map (·.flight_id) =
        (periodFlights db ps pe).map (·.flight_id)) ∧
      (∀ a ∈ (processSolution (buildSolverInstance db ps pe) sol).1,
        (∃ cid, a.crew_id = some cid ∧ a.note = none) ∨
        (a.crew_id = none ∧ a.note = some "UNASSIGNED")) := by
  intro db ps pe rules sol
  refine ⟨?_, ?_, ?_, ?_, ?_⟩
  · have h := greedyFold_map_flight_id (greedyCtx db ps pe rules)
      (periodFlights db ps pe) {}
    simpa [generate_roster, greedyRun] using h
  · exact List.Perm.map _ (List.perm_insertionSort _ _)
  · intro a ha
    have hinv := greedyFold_entry_inv (greedyCtx db ps pe rules)
      (periodFlights db ps pe) a (by simpa [generate_roster, greedyRun] using ha)
    rcases hinv with ⟨h1, h2⟩ | ⟨f, -, -, c, -, hcid, hnote, -, -⟩
    · exact Or.inr ⟨h1, h2⟩
    · exact Or.inl ⟨c.crew_id, hcid, hnote⟩
  · exact decodeSolution_map_flight_id (buildSolverInstance db ps pe) sol
  · intro a ha
    obtain ⟨f, -, -, hdisj⟩ :=
      decodeSolution_entry (buildSolverInstance db ps pe) sol a ha
    rcases hdisj with ⟨h1, h2⟩ | ⟨c, -, hcid, hnote, -⟩
    · exact Or.inr ⟨h1, h2⟩
    · exact Or.inl ⟨c.crew_id, hcid, hnote⟩

theorem c1_every_flight_exactly_once_witness :
    ((generate_roster exDb 5 20 {}).1.map (·.flight_id) =
      (periodFlights exDb 5 20).map (·.flight_id)) ∧
    (({ crew_id := some 1, crew_name := some "Asha", flight_id := 101,
        duty_start_utc := 15000, duty_end_utc := 15120,
        note := none } : AssignmentEntry) ∈ (generate_roster exDb 5 20 ({} : RulesEngine)).1 ∧
      (∃ cid, (some 1 : Option Int) = some cid ∧ (none : Option String) = none) ∨
        ((some 1 : Option Int) = none ∧ (none : Option String) = some "UNASSIGNED")) := by
  have h := c1_every_flight_exactly_once exDb 5 20 {} exSol
  refine ⟨h.1, Or.inl ⟨by decide, ?_⟩⟩
  have h3 := h.2.2.1
    { crew_id := some 1, crew_name := some "Asha", flight_id := 101,
      duty_start_utc := 15000, duty_end_utc := 15120, note := none } (by decide)
  rcases h3 with ⟨cid, hc, hn⟩ | ⟨hc, -⟩
  · exact ⟨cid, hc, hn⟩
  · cases hc

/-- C2 (counterexample): the claim fails for ConstraintSolver.  With a crew
whose only A320 qualification expires on day 7 — unexpired as of the
generation day (day 5) but expired before the flight's date (day 10) — the
solver's qualification constraints (which check expiry against *today*, not
the flight date) admit a feasible solution assigning that crew, so the
decoded roster contains an assignment with no flight-date-valid
qualification. -/
theorem c2_expired_at_flight_date_counterexample :
    ¬ (∀ (db : Db) (ps pe : Int) (sol : Int → Int → Bool),
        solverFeasible (buildSolverInstance db ps pe) sol = true →
        ∀ a ∈ (processSolution (buildSolverInstance db ps pe) sol).1,
          ∀ cid, a.crew_id = some cid →
            ∃ f ∈ db.flights, a.flight_id = f.flight_id ∧
              ∃ q ∈ db.quals, q.crew_id = cid ∧ q.aircraft_code = f.aircraft_code ∧
                (q.expires_on = none ∨ ∃ e, q.expires_on = some e ∧ f.flight_date ≤ e)) := by
  intro h
  have hc := h exDbExpiring 5 20 exSol (by decide)
    { crew_id := some 1, crew_name := some "Asha", flight_id := 101,
      duty_start_utc := 15000, duty_end_utc := 15120, note := none }
    (by decide) 1 rfl
  revert hc
  decide

/-- C2 (amended): no roster entry of either strategy assigns a crew without a
qualification record for the flight's aircraft type — for GreedyAssigner the
record is additionally unexpired as of the flight date (the claim as stated);
for ConstraintSolver the record is only guaranteed unexpired as of the
roster-generation day (`today`), so a qualification expiring between
generation day and flight date does not prevent assignment. -/
theorem c2_qualification_validity :
    ∀ (db : Db) (ps pe : Int) (rules : RulesEngine) (sol : Int → Int → Bool),
      (∀ a ∈ (generate_roster db ps pe rules).1, ∀ cid, a.crew_id = some cid →
        ∃ f ∈ db.flights, a.flight_id = f.flight_id ∧
          ∃ q ∈ db.quals, q.crew_id = cid ∧ q.aircraft_code = f.aircraft_code ∧
            (q.expires_on = none ∨ ∃ e, q.expires_on = some e ∧ f.flight_date ≤ e)) ∧
      (solverFeasible (buildSolverInstance db ps pe) sol = true →
        ∀ a ∈ (processSolution (buildSolverInstance db ps pe) sol).1,
          ∀ cid, a.crew_id = some cid →
            ∃ f ∈ db.flights, a.flight_id = f.flight_id ∧
              ∃ q ∈ db.quals, q.crew_id = cid ∧ q.aircraft_code = f.aircraft_code ∧
                (q.expires_on = none ∨ ∃ e, q.expires_on = some e ∧ db.today ≤ e)) := by
  intro db ps pe rules sol
  constructor
  · intro a ha cid hcid
    have hinv := greedyFold_entry_inv (greedyCtx db ps pe rules)
      (periodFlights db ps pe) a (by simpa [generate_roster, greedyRun] using ha)
    rcases hinv with ⟨h1, -⟩ | ⟨f, hf, hfid, c, -, hcid', -, hqual, -⟩
    · rw [hcid] at h1; cases h1
    · have hcc : cid = c.crew_id := by
        rw [hcid] at hcid'
        exact Option.some_inj.mp hcid'
      obtain ⟨q, hq, hqc, hqa, hqe⟩ := is_crew_qualified_spec hqual
      have hq' : q ∈ db.quals := (currentQuals_sub hq).1
      exact ⟨f, (mem_periodFlights hf).1, hfid, q, hq', by rw [hqc, hcc], hqa, hqe⟩
  · intro hfeas a ha cid hcid
    obtain ⟨f, hf, hfid, hdisj⟩ :=
      decodeSolution_entry (buildSolverInstance db ps pe) sol a ha
    rcases hdisj with ⟨h1, -⟩ | ⟨c, hc, hcid', -, hsol⟩
    · rw [hcid] at h1; cases h1
    · have hcc : cid = c.crew_id := by
        rw [hcid] at hcid'
        exact Option.some_inj.mp hcid'
      have hqm := (solverFeasible_spec hfeas).1 f hf c hc hsol
      obtain ⟨q, hq, hqc, hqa⟩ := qualMapHas_spec hqm
      obtain ⟨hq', hqe⟩ := currentQuals_sub hq
      exact ⟨f, (mem_periodFlights hf).1, hfid, q, hq', by rw [hqc, hcc], hqa, hqe⟩

theorem c2_qualification_validity_witness :
    (({ crew_id := some 1, crew_name := some "Asha", flight_id := 101,
        duty_start_utc := 15000, duty_end_utc := 15120,
        note := none } : AssignmentEntry) ∈ (generate_roster exDb 5 20 ({} : RulesEngine)).1) ∧
    (∃ f ∈ exDb.flights, (101 : Int) = f.flight_id ∧
      ∃ q ∈ exDb.quals, q.crew_id = 1 ∧ q.aircraft_code = f.aircraft_code ∧
        (q.expires_on = none ∨ ∃ e, q.expires_on = some e ∧ f.flight_date ≤ e)) := by
  refine ⟨by decide, ?_⟩
  exact (c2_qualification_validity exDb 5 20 {} exSol).1
    { crew_id := some 1, crew_name := some "Asha", flight_id := 101,
      duty_start_utc := 15000, duty_end_utc := 15120, note := none }
    (by decide) 1 rfl

lemma approvedUnavail_append_nonapproved (db : Db) (ps pe : Int) (r : AvailRow)
    (hr : r.status ≠ "approved") :
    approvedUnavail { db with avail := db.avail ++ [r] } ps pe =
      approvedUnavail db ps pe := by
  unfold approvedUnavail
  rw [show ({ db with avail := db.avail ++ [r] } : Db).avail = db.avail ++ [r] from rfl]
  rw [List.filter_append]
  have hnil : [r].filter (fun x => decide (x.unavailable_from ≤ pe ∧
      ps ≤ x.unavailable_to ∧ x.status = "approved")) = [] := by
    simp [hr]
  rw [hnil, List.append_nil]

/-- C3: neither strategy assigns a crew member a flight whose date is covered
by an `approved` `CrewAvailability` record for that crew — and records whose
status is not `approved` never exclude anyone: appending such a record to the
database leaves both strategies' outputs unchanged. -/
theorem c3_approved_unavailability_respected :
    ∀ (db : Db) (ps pe : Int) (rules : RulesEngine) (sol : Int → Int → Bool),
      (∀ a ∈ (generate_roster db ps pe rules).1, ∀ cid, a.crew_id = some cid →
        ∃ f ∈ db.flights, a.flight_id = f.flight_id ∧
          ∀ r ∈ db.avail, r.crew_id = cid → r.status = "approved" →
            ¬(r.unavailable_from ≤ f.flight_date ∧ f.flight_date ≤ r.unavailable_to)) ∧
      (solverFeasible (buildSolverInstance db ps pe) sol = true →
        ∀ a ∈ (processSolution (buildSolverInstance db ps pe) sol).1,
          ∀ cid, a.crew_id = some cid →
            ∃ f ∈ db.flights, a.flight_id = f.flight_id ∧
              ∀ r ∈ db.avail, r.crew_id = cid → r.status = "approved" →
                ¬(r.unavailable_from ≤ f.flight_date ∧ f.flight_date ≤ r.unavailable_to)) ∧
      (∀ r : AvailRow, r.status ≠ "approved" →
        generate_roster { db with avail := db.avail ++ [r] } ps pe rules =
          generate_roster db ps pe rules ∧
        buildSolverInstance { db with avail := db.avail ++ [r] } ps pe =
          buildSolverInstance db ps pe) := by
  intro db ps pe rules sol
  refine ⟨?_, ?_, ?_⟩
  · intro a ha cid hcid
    have hinv := greedyFold_entry_inv (greedyCtx db ps pe rules)
      (periodFlights db ps pe) a (by simpa [generate_roster, greedyRun] using ha)
    rcases hinv with ⟨h1, -⟩ | ⟨f, hf, hfid, c, -, hcid', -, -, havail⟩
    · rw [hcid] at h1; cases h1
    · have hcc : cid = c.crew_id := by
        rw [hcid] at hcid'
        exact Option.some_inj.mp hcid'
      obtain ⟨hfdb, hf1, hf2⟩ := mem_periodFlights hf
      refine ⟨f, hfdb, hfid, ?_⟩
      intro r hr hrc hrs hcover
      have hmem : r ∈ approvedUnavail db ps pe :=
        mem_approvedUnavail hr hrs (le_trans hcover.1 hf2) (le_trans hf1 hcover.2)
      exact is_crew_available_spec havail r hmem ⟨hcc ▸ hrc, hcover⟩
  · intro hfeas a ha cid hcid
    obtain ⟨f, hf, hfid, hdisj⟩ :=
      decodeSolution_entry (buildSolverInstance db ps pe) sol a ha
    rcases hdisj with ⟨h1, -⟩ | ⟨c, hc, hcid', -, hsol⟩
    · rw [hcid] at h1; cases h1
    · have hcc : cid = c.crew_id := by
        rw [hcid] at hcid'
        exact Option.some_inj.mp hcid'
      have hun := (solverFeasible_spec hfeas).2 f hf c hc hsol
      obtain ⟨hfdb, hf1, hf2⟩ := mem_periodFlights hf
      refine ⟨f, hfdb, hfid, ?_⟩
      intro r hr hrc hrs hcover
      have hmem : r ∈ approvedUnavail db ps pe :=
        mem_approvedUnavail hr hrs (le_trans hcover.1 hf2) (le_trans hf1 hcover.2)
      exact solverUnavailable_false hun r hmem ⟨hcc ▸ hrc, hcover⟩
  · intro r hr
    constructor
    · show generate_roster { db with avail := db.avail ++ [r] } ps pe rules =
        generate_roster db ps pe rules
      unfold generate_roster greedyRun greedyCtx
      rw [approvedUnavail_append_nonapproved db ps pe r hr]
      rfl
    · unfold buildSolverInstance
      rw [approvedUnavail_append_nonapproved db ps pe r hr]
      rfl

theorem c3_approved_unavailability_respected_witness :
    (({ crew_id := some 1, crew_name := some "Asha", flight_id := 101,
        duty_start_utc := 15000, duty_end_utc := 15120,
        note := none } : AssignmentEntry) ∈ (generate_roster exDb 5 20 ({} : RulesEngine)).1) ∧
    (∃ f ∈ exDb.flights, (101 : Int) = f.flight_id ∧
      ∀ r ∈ exDb.avail, r.crew_id = 1 → r.status = "approved" →
        ¬(r.unavailable_from ≤ f.flight_date ∧ f.flight_date ≤ r.unavailable_to)) ∧
    generate_roster { exDb with avail := exDb.avail ++
        [{ crew_id := 1, availability_type := "leave", unavailable_from := 9,
           unavailable_to := 12, status := "pending" }] } 5 20 ({} : RulesEngine) =
      generate_roster exDb 5 20 ({} : RulesEngine) := by
  refine ⟨by decide, ?_, ?_⟩
  · exact (c3_approved_unavailability_respected exDb 5 20 {} exSol).1
      { crew_id := some 1, crew_name := some "Asha", flight_id := 101,
        duty_start_utc := 15000, duty_end_utc := 15120, note := none }
      (by decide) 1 rfl
  · exact ((c3_approved_unavailability_respected exDb 5 20 {} exSol).2.2
      { crew_id := 1, availability_type := "leave", unavailable_from := 9,
        unavailable_to := 12, status := "pending" } (by decide)).1

lemma foldl_min_le {l : List Nat} : ∀ a : Nat, l.foldl min a ≤ a := by
  induction l with
  | nil => intro a; simp
  | cons x xs ih =>
      intro a
      simp only [List.foldl_cons]
      exact le_trans (ih (min a x)) (min_le_left a x)

lemma le_foldl_max {l : List Nat} : ∀ a : Nat, a ≤ l.foldl max a := by
  induction l with
  | nil => intro a; simp
  | cons x xs ih =>
      intro a
      simp only [List.foldl_cons]
      exact le_trans (le_max_left a x) (ih (max a x))

lemma minDutyCount_le_maxDutyCount (m : List (Int × Nat)) :
    minDutyCount m ≤ maxDutyCount m := by
  unfold minDutyCount maxDutyCount
  cases avalues m with
  | nil => simp
  | cons v vs => exact le_trans (foldl_min_le v) (le_foldl_max v)

/-- The fairness-score block of the shared KPI computation satisfies the
claimed formula and bounds. -/
lemma computeKpis_fairness_spec (assignments : List AssignmentEntry) (total : Nat)
    (m : List (Int × Nat)) (fl : List FlightRow) (prefs : List PrefRow) :
    (computeKpis assignments total m fl prefs).fairness_score =
      1 - (((computeKpis assignments total m fl prefs).max_duty_per_crew : ℚ) -
            ((computeKpis assignments total m fl prefs).min_duty_per_crew : ℚ)) /
          (((computeKpis assignments total m fl prefs).max_duty_per_crew : ℚ) + 1) ∧
    0 ≤ (computeKpis assignments total m fl prefs).fairness_score ∧
    (computeKpis assignments total m fl prefs).fairness_score ≤ 1 ∧
    ((computeKpis assignments total m fl prefs).max_duty_per_crew = 0 ∨
      (computeKpis assignments total m fl prefs).max_duty_per_crew =
        (computeKpis assignments total m fl prefs).min_duty_per_crew →
      (computeKpis assignments total m fl prefs).fairness_score = 1) := by
  have hmax : (computeKpis assignments total m fl prefs).max_duty_per_crew =
      maxDutyCount m := rfl
  have hmin : (computeKpis assignments total m fl prefs).min_duty_per_crew =
      minDutyCount m := rfl
  have hfair : (computeKpis assignments total m fl prefs).fairness_score =
      if maxDutyCount m ≠ 0 then
        1 - ((maxDutyCount m : ℚ) - (minDutyCount m : ℚ)) / ((maxDutyCount m : ℚ) + 1)
      else 1 := rfl
  have hle := minDutyCount_le_maxDutyCount m
  rw [hmax, hmin, hfair]
  by_cases hM : maxDutyCount m = 0
  · have hN : minDutyCount m = 0 := Nat.le_zero.mp (hM ▸ hle)
    rw [if_neg (by simpa using hM), hM, hN]
    norm_num
  · rw [if_pos hM]
    have hMpos : (0 : ℚ) < (maxDutyCount m : ℚ) + 1 := by positivity
    have hNle : (minDutyCount m : ℚ) ≤ (maxDutyCount m : ℚ) := by exact_mod_cast hle
    have hratio0 : (0 : ℚ) ≤ ((maxDutyCount m : ℚ) - (minDutyCount m : ℚ)) /
        ((maxDutyCount m : ℚ) + 1) := by
      apply div_nonneg (by linarith) (le_of_lt hMpos)
    have hratio1 : ((maxDutyCount m : ℚ) - (minDutyCount m : ℚ)) /
        ((maxDutyCount m : ℚ) + 1) ≤ 1 := by
      rw [div_le_one hMpos]
      have : (0 : ℚ) ≤ (minDutyCount m : ℚ) := by positivity
      linarith
    refine ⟨rfl, by linarith, by linarith, ?_⟩
    rintro (h | h)
    · exact absurd h hM
    · rw [h]
      simp

/-- C8: for both strategies the KPI `fairness_score` equals
`1 − (max_duty_per_crew − min_duty_per_crew)/(max_duty_per_crew + 1)`, always
lies in [0, 1], and equals exactly 1 when `max_duty_per_crew` is 0 or equals
`min_duty_per_crew`. -/
theorem c8_fairness_score_formula :
    ∀ (db : Db) (ps pe : Int) (rules : RulesEngine) (inst : SolverInstance)
      (sol : Int → Int → Bool),
      ((generate_roster db ps pe rules).2.fairness_score =
        1 - (((generate_roster db ps pe rules).2.max_duty_per_crew : ℚ) -
              ((generate_roster db ps pe rules).2.min_duty_per_crew : ℚ)) /
            (((generate_roster db ps pe rules).2.max_duty_per_crew : ℚ) + 1) ∧
       0 ≤ (generate_roster db ps pe rules).2.fairness_score ∧
       (generate_roster db ps pe rules).2.fairness_score ≤ 1 ∧
       ((generate_roster db ps pe rules).2.max_duty_per_crew = 0 ∨
         (generate_roster db ps pe rules).2.max_duty_per_crew =
           (generate_roster db ps pe rules).2.min_duty_per_crew →
         (generate_roster db ps pe rules).2.fairness_score = 1)) ∧
      ((processSolution inst sol).2.fairness_score =
        1 - (((processSolution inst sol).2.max_duty_per_crew : ℚ) -
              ((processSolution inst sol).2.min_duty_per_crew : ℚ)) /
            (((processSolution inst sol).2.max_duty_per_crew : ℚ) + 1) ∧
       0 ≤ (processSolution inst sol).2.fairness_score ∧
       (processSolution inst sol).2.fairness_score ≤ 1 ∧
       ((processSolution inst sol).2.max_duty_per_crew = 0 ∨
         (processSolution inst sol).2.max_duty_per_crew =
           (processSolution inst sol).2.min_duty_per_crew →
         (processSolution inst sol).2.fairness_score = 1)) := by
  intro db ps pe rules inst sol
  exact ⟨computeKpis_fairness_spec _ _ _ _ _, computeKpis_fairness_spec _ _ _ _ _⟩

theorem c8_fairness_score_formula_witness :
    ((generate_roster exDb 5 20 ({} : RulesEngine)).2.max_duty_per_crew = 0 ∨
      (generate_roster exDb 5 20 ({} : RulesEngine)).2.max_duty_per_crew =
        (generate_roster exDb 5 20 ({} : RulesEngine)).2.min_duty_per_crew) ∧
    (generate_roster exDb 5 20 ({} : RulesEngine)).2.fairness_score = 1 := by
  refine ⟨Or.inr (by decide), ?_⟩
  exact (c8_fairness_score_formula exDb 5 20 {} (buildSolverInstance exDb 5 20)
    exSol).1.2.2.2 (Or.inr (by decide))

lemma saveDutyInsert_frame (db : Db) (k : Int) (b : String) (st : Db)
    (a : AssignmentEntry) :
    (saveDutyInsert db k b st a).flights = st.flights ∧
    (saveDutyInsert db k b st a).crew = st.crew ∧
    (saveDutyInsert db k b st a).quals = st.quals ∧
    (saveDutyInsert db k b st a).prefs = st.prefs ∧
    (saveDutyInsert db k b st a).avail = st.avail ∧
    (saveDutyInsert db k b st a).disruptions = st.disruptions ∧
    (saveDutyInsert db k b st a).today = st.today := by
  unfold saveDutyInsert
  cases db.flights.find? (fun f => f.flight_id == a.flight_id) with
  | none => exact ⟨rfl, rfl, rfl, rfl, rfl, rfl, rfl⟩
  | some fl => exact ⟨rfl, rfl, rfl, rfl, rfl, rfl, rfl⟩

lemma saveCrewGroup_frame (db : Db) (kept : List AssignmentEntry) (st : Db) (k : Int) :
    (saveCrewGroup db kept st k).flights = st.flights ∧
    (saveCrewGroup db kept st k).crew = st.crew ∧
    (saveCrewGroup db kept st k).quals = st.quals ∧
    (saveCrewGroup db kept st k).prefs = st.prefs ∧
    (saveCrewGroup db kept st k).avail = st.avail ∧
    (saveCrewGroup db kept st k).disruptions = st.disruptions ∧
    (saveCrewGroup db kept st k).today = st.today := by
  unfold saveCrewGroup
  refine foldl_inv (fun s : Db => s.flights = st.flights ∧ s.crew = st.crew ∧
    s.quals = st.quals ∧ s.prefs = st.prefs ∧ s.avail = st.avail ∧
    s.disruptions = st.disruptions ∧ s.today = st.today) _ _ _
    ⟨rfl, rfl, rfl, rfl, rfl, rfl, rfl⟩ ?_
  intro s a _ hs
  obtain ⟨h1, h2, h3, h4, h5, h6, h7⟩ := saveDutyInsert_frame db k _ s a
  exact ⟨h1.trans hs.1, h2.trans hs.2.1, h3.trans hs.2.2.1, h4.trans hs.2.2.2.1,
    h5.trans hs.2.2.2.2.1, h6.trans hs.2.2.2.2.2.1, h7.trans hs.2.2.2.2.2.2⟩

/-- C7 (counterexample): the commit step is neither scope-limited nor a
single transaction.  With a database holding one committed duty row (outside
any reasonable scope) and an empty assignment list,
`save_assignments_to_duty_tables` produces two committed states, so the
"exactly one committed state, out-of-scope rows preserved" reading of the
claim is false. -/
theorem c7_commit_counterexample :
    ¬ (∀ (db : Db) (assignments : List AssignmentEntry) (ps pe : DateTime),
        (save_assignments_to_duty_tables db assignments).length = 1 ∧
        ∀ s ∈ save_assignments_to_duty_tables db assignments,
          ∀ dp ∈ db.dutyPeriods,
            (dp.duty_end_utc < ps ∨ pe < dp.duty_start_utc) → dp ∈ s.dutyPeriods) := by
  intro h
  have hlen := (h exDbDuty [] 1000 2000).1
  revert hlen
  decide

/-- C7 (amended): committing a roster wholesale-replaces the duty tables in
TWO committed states, not one: the first committed state has *all*
`DutyPeriod`/`DutyFlight` rows deleted (including rows outside the requested
period), and only the second holds the newly inserted rows — so an
intermediate state with an empty roster is observable between the two
commits.  Tables other than `DutyPeriod`/`DutyFlight` are unchanged in every
committed state. -/
theorem c7_commit_two_states_global_clear :
    ∀ (db : Db) (assignments : List AssignmentEntry),
      (save_assignments_to_duty_tables db assignments).length = 2 ∧
      (∃ s1 s2, save_assignments_to_duty_tables db assignments = [s1, s2] ∧
        s1.dutyPeriods = [] ∧ s1.dutyFlights = [] ∧
        s1.flights = db.flights ∧ s1.crew = db.crew ∧ s1.quals = db.quals ∧
        s1.prefs = db.prefs ∧ s1.avail = db.avail ∧
        s1.disruptions = db.disruptions ∧ s1.today = db.today ∧
        s2.flights = db.flights ∧ s2.crew = db.crew ∧ s2.quals = db.quals ∧
        s2.prefs = db.prefs ∧ s2.avail = db.avail ∧
        s2.disruptions = db.disruptions ∧ s2.today = db.today) := by
  intro db assignments
  have hinv := foldl_inv
    (fun s : Db => s.flights = db.flights ∧ s.crew = db.crew ∧
      s.quals = db.quals ∧ s.prefs = db.prefs ∧ s.avail = db.avail ∧
      s.disruptions = db.disruptions ∧ s.today = db.today)
    (saveCrewGroup db (assignments.filter (fun a =>
      crewIdTruthy a && !(a.note == some "UNASSIGNED"))))
    ((assignments.filter (fun a => crewIdTruthy a && !(a.note == some "UNASSIGNED"))).foldl
      (fun ks a => match a.crew_id with
        | some k => if k ∈ ks then ks else ks ++ [k]
        | none => ks) [])
    { db with dutyFlights := [], dutyPeriods := [] }
    ⟨rfl, rfl, rfl, rfl, rfl, rfl, rfl⟩
    (by
      intro s k _ hs
      obtain ⟨h1, h2, h3, h4, h5, h6, h7⟩ := saveCrewGroup_frame db _ s k
      exact ⟨h1.trans hs.1, h2.trans hs.2.1, h3.trans hs.2.2.1,
        h4.trans hs.2.2.2.1, h5.trans hs.2.2.2.2.1, h6.trans hs.2.2.2.2.2.1,
        h7.trans hs.2.2.2.2.2.2⟩)
  exact ⟨rfl, { db with dutyFlights := [], dutyPeriods := [] }, _, rfl,
    rfl, rfl, rfl, rfl, rfl, rfl, rfl, rfl, rfl,
    hinv.1, hinv.2.1, hinv.2.2.1, hinv.2.2.2.1, hinv.2.2.2.2.1,
    hinv.2.2.2.2.2.1, hinv.2.2.2.2.2.2⟩

lemma perDutyConflicts_ctype (e : HardSoftRulesEngine) (cr : CrewRow)
    (duties : List (DutyPeriodRow × FlightRow)) (n : Nat)
    (d : DutyPeriodRow × FlightRow) :
    ∀ cf ∈ perDutyConflicts e cr duties n d,
      cf.ctype = "hard_rule_violation" ∨ cf.ctype = "soft_rule_violation" := by
  intro cf h
  simp only [perDutyConflicts, List.mem_append, List.mem_map, List.mem_filter] at h
  rcases h with ⟨v, -, hv⟩ | ⟨p, -, hp⟩
  · rw [← hv]
    exact Or.inl rfl
  · rw [← hp]
    exact Or.inr rfl

lemma qualMismatchConflicts_ctype (db : Db)
    (rows : List (DutyPeriodRow × FlightRow × CrewRow)) :
    ∀ cf ∈ qualMismatchConflicts db rows, cf.ctype = "qualification_mismatch" := by
  intro cf h
  simp only [qualMismatchConflicts, List.mem_flatMap] at h
  obtain ⟨r, -, hcf⟩ := h
  split at hcf
  · split at hcf
    · split at hcf
      · simp at hcf
        rw [hcf]
      · simp at hcf
    · simp at hcf
  · simp at hcf
    rw [hcf]

/-- C10: given exactly two committed DutyPeriods for the same crew, each
linked to its own flight and both inside the audited period (start-ordered),
`detect_conflicts` reports exactly one overlapping-duty conflict when the
later duty's start precedes the earlier duty's end, and none otherwise — in
particular, a duty starting exactly when the previous one ends is not
reported. -/
theorem c10_overlapping_duty_detection (c : CrewRow) (f1 f2 : FlightRow)
    (dp1 dp2 : DutyPeriodRow) (qs : List QualRow) (ps pe : DateTime)
    (e : HardSoftRulesEngine)
    (hc1 : dp1.crew_id = c.crew_id) (hc2 : dp2.crew_id = c.crew_id)
    (hd : dp1.duty_id ≠ dp2.duty_id) (hfid : f1.flight_id ≠ f2.flight_id)
    (hp1 : ps ≤ dp1.duty_start_utc) (hp1' : dp1.duty_end_utc ≤ pe)
    (hp2 : ps ≤ dp2.duty_start_utc) (hp2' : dp2.duty_end_utc ≤ pe)
    (hord : dp1.duty_start_utc ≤ dp2.duty_start_utc) :
    ((detect_conflicts
      { flights := [f1, f2], crew := [c], quals := qs,
        dutyPeriods := [dp1, dp2],
        dutyFlights := [{ duty_id := dp1.duty_id, flight_id := f1.flight_id, leg_seq := 1 },
                        { duty_id := dp2.duty_id, flight_id := f2.flight_id, leg_seq := 1 }] }
      ps pe e).countP (fun cf => cf.ctype == "overlapping_duties")) =
    if dp2.duty_start_utc < dp1.duty_end_utc then 1 else 0 := by
  have hrows : dutyJoinRows
      { flights := [f1, f2], crew := [c], quals := qs,
        dutyPeriods := [dp1, dp2],
        dutyFlights := [{ duty_id := dp1.duty_id, flight_id := f1.flight_id, leg_seq := 1 },
                        { duty_id := dp2.duty_id, flight_id := f2.flight_id, leg_seq := 1 }] }
      ps pe = [(dp1, f1, c), (dp2, f2, c)] := by
    unfold dutyJoinRows
    simp [Ne.symm hd, Ne.symm hfid, hc1, hc2, hp1, hp1', hp2, hp2', hd, hfid]
  have hkeys : crewGroupKeys [(dp1, f1, c), (dp2, f2, c)] = [c.crew_id] := by
    simp [crewGroupKeys]
  unfold detect_conflicts
  rw [hrows, hkeys]
  simp only [List.flatMap_cons, List.flatMap_nil, List.append_nil, List.length_cons,
    List.length_nil]
  rw [List.countP_append]
  have hqual0 : (qualMismatchConflicts
      { flights := [f1, f2], crew := [c], quals := qs,
        dutyPeriods := [dp1, dp2],
        dutyFlights := [{ duty_id := dp1.duty_id, flight_id := f1.flight_id, leg_seq := 1 },
                        { duty_id := dp2.duty_id, flight_id := f2.flight_id, leg_seq := 1 }] }
      [(dp1, f1, c), (dp2, f2, c)]).countP
        (fun cf => cf.ctype == "overlapping_duties") = 0 := by
    rw [List.countP_eq_zero]
    intro cf hcf
    have := qualMismatchConflicts_ctype _ _ cf hcf
    simp [this]
  rw [hqual0]
  unfold crewSectionConflicts
  have hfind : ([(dp1, f1, c), (dp2, f2, c)].find?
      (fun r => r.2.2.crew_id == c.crew_id)) = some (dp1, f1, c) := by
    simp [List.find?]
  rw [hfind]
  have hduties : crewDuties [(dp1, f1, c), (dp2, f2, c)] c.crew_id =
      [(dp1, f1), (dp2, f2)] := by
    simp [crewDuties]
  rw [hduties]
  simp only [Option.map_some']
  have hsort : List.insertionSort
      (fun (a b : DutyPeriodRow × FlightRow) => a.1.duty_start_utc ≤ b.1.duty_start_utc)
      [(dp1, f1), (dp2, f2)] = [(dp1, f1), (dp2, f2)] := by
    simp [List.insertionSort, List.orderedInsert, hord]
  rw [hsort, List.countP_append]
  have hper0 : (([(dp1, f1), (dp2, f2)]).flatMap
      (perDutyConflicts e (dp1, f1, c).2.2 [(dp1, f1), (dp2, f2)] 1)).countP
        (fun cf => cf.ctype == "overlapping_duties") = 0 := by
    rw [List.countP_eq_zero]
    intro cf hcf
    rw [List.mem_flatMap] at hcf
    obtain ⟨d, -, hcf⟩ := hcf
    rcases perDutyConflicts_ctype _ _ _ _ _ cf hcf with h | h <;> simp [h]
  rw [hper0]
  unfold overlapConflicts consecPairs
  by_cases hov : dp2.duty_start_utc < dp1.duty_end_utc
  · rw [if_pos hov]
    simp [hov]
  · rw [if_neg hov]
    simp [hov]

theorem c10_overlapping_duty_detection_witness :
    exDuty1.crew_id = exCrew.crew_id ∧
    exDuty2.duty_start_utc < exDuty1.duty_end_utc ∧
    ((detect_conflicts
      { flights := [exFlight1, exFlight2], crew := [exCrew], quals := [exQual],
        dutyPeriods := [exDuty1, exDuty2],
        dutyFlights := [{ duty_id := exDuty1.duty_id, flight_id := exFlight1.flight_id,
                          leg_seq := 1 },
                        { duty_id := exDuty2.duty_id, flight_id := exFlight2.flight_id,
                          leg_seq := 1 }] }
      0 200000 ({} : HardSoftRulesEngine)).countP
        (fun cf => cf.ctype == "overlapping_duties")) = 1 := by
  refine ⟨by decide, by decide, ?_⟩
  have h := c10_overlapping_duty_detection exCrew exFlight1 exFlight2 exDuty1 exDuty2
    [exQual] 0 200000 {} (by decide) (by decide) (by decide) (by decide) (by decide)
    (by decide) (by decide) (by decide) (by decide)
  exact h.trans (by decide)
